import Mathlib

set_option maxHeartbeats 1000000

/-!
Verification of the single-worker debugging pipeline core.

This file gives a shallow embedding of the program's core:
* the Python string helpers its sentinel matcher relies on,
* `core/cli_strings.py` (sentinel constants and `check_sentinel_in_output`),
* `core/models.py` (task status, events),
* `core/manager.py` (`TaskManager`: the three-stage pipeline, the step-3
  retry loop, event emission, the worker loop),
* `claude/client.py` (`ClaudeClient.run`, modelled over the behaviour of
  the external process it spawns),
and proves the specification's claims about these definitions.
-/

/- ----------------------------------------------------------------
   Python string primitives used by `core/cli_strings.py`.
   ---------------------------------------------------------------- -/

/-- The whitespace characters Python's `str.strip()` removes. -/
def pyIsSpace (c : Char) : Bool :=
  c = ' ' || c = '\t' || c = '\n' || c = '\x0b' || c = '\x0c' || c = '\r'

/-- Drop leading whitespace characters. -/
def dropSpaceLeft : List Char → List Char
  | [] => []
  | c :: cs => if pyIsSpace c then dropSpaceLeft cs else c :: cs

/-- Model of Python `str.strip()`: remove leading and trailing whitespace. -/
def pyStrip (s : String) : String :=
  String.mk (dropSpaceLeft (dropSpaceLeft s.data.reverse).reverse)

/-- Worker for `pySplitlines`: split at `\r\n`, `\n` or `\r`; a trailing
line terminator does not produce a final empty line (Python semantics). -/
def splitlinesGo : List Char → List Char → List String
  | [], acc => [String.mk acc.reverse]
  | '\r' :: '\n' :: rest, acc =>
      String.mk acc.reverse :: (if rest.isEmpty then [] else splitlinesGo rest [])
  | '\n' :: rest, acc =>
      String.mk acc.reverse :: (if rest.isEmpty then [] else splitlinesGo rest [])
  | '\r' :: rest, acc =>
      String.mk acc.reverse :: (if rest.isEmpty then [] else splitlinesGo rest [])
  | c :: rest, acc => splitlinesGo rest (c :: acc)

/-- Model of Python `str.splitlines()` (restricted to the `\n`, `\r`,
`\r\n` line boundaries): `"".splitlines() = []`. -/
def pySplitlines (s : String) : List String :=
  if s.data.isEmpty then [] else splitlinesGo s.data []

/-- Model of Python `str.upper()` (ASCII letters; the sentinel strings and
the lines compared against them are ASCII). -/
def pyUpper (s : String) : String :=
  String.mk (s.data.map Char.toUpper)

/- ----------------------------------------------------------------
   core/cli_strings.py
   ---------------------------------------------------------------- -/

/-- `STEP2_SENTINEL` from `core/cli_strings.py`. -/
def STEP2_SENTINEL : String := "RESULT: TESTS_WRITTEN"

/-- `PASS_SENTINEL` from `core/cli_strings.py`. -/
def PASS_SENTINEL : String := "RESULT: PASS"

/-- `FAIL_SENTINEL` from `core/cli_strings.py`. -/
def FAIL_SENTINEL : String := "RESULT: FAIL"

/-- `TEST_DIR_NAME` from `core/cli_strings.py`. -/
def TEST_DIR_NAME : String := "test_bugfix"

/-- `ARTIFACTS_DIR_NAME` from `core/cli_strings.py`. -/
def ARTIFACTS_DIR_NAME : String := ".claude_tasks"

/-- `check_sentinel_in_output` from `core/cli_strings.py`:

    lines = output.strip().splitlines()
    last_lines = lines[-3:] if len(lines) >= 3 else lines
    for line in last_lines:
        if line.strip().upper() == sentinel.upper(): return True
    return False
-/
def check_sentinel_in_output (output sentinel : String) : Bool :=
  let lines := pySplitlines (pyStrip output)
  let last_lines := if 3 ≤ lines.length then lines.drop (lines.length - 3) else lines
  last_lines.any (fun line => pyUpper (pyStrip line) == pyUpper sentinel)

/-- The matcher property exactly as the specification words it: some line
among the last 3 NON-EMPTY lines of the output equals the sentinel
case-insensitively after trimming. (Stated for comparison with
`check_sentinel_in_output`, which is translated from the source.) -/
def matches_spec_nonempty (output sentinel : String) : Bool :=
  (((pySplitlines output).filter (fun l => !(l == ""))).reverse.take 3).any
    (fun line => pyUpper (pyStrip line) == pyUpper sentinel)

/-- The amended matcher property: some line among the last 3 lines of the
whitespace-trimmed output (a window that may contain blank lines) equals
the sentinel case-insensitively after trimming. -/
def matches_last3_lines (output sentinel : String) : Bool :=
  ((pySplitlines (pyStrip output)).reverse.take 3).any
    (fun line => pyUpper (pyStrip line) == pyUpper sentinel)

/- ----------------------------------------------------------------
   Window lemmas for the sentinel matcher.
   ---------------------------------------------------------------- -/

theorem any_reverse_eq {α : Type} (l : List α) (p : α → Bool) :
    l.reverse.any p = l.any p := by
  induction l with
  | nil => rfl
  | cons a t ih => simp [List.any_append, ih, Bool.or_comm]

theorem lastWindow_any {α : Type} (l : List α) (p : α → Bool) (n : Nat) :
    (if n ≤ l.length then l.drop (l.length - n) else l).any p
      = (l.reverse.take n).any p := by
  split
  · have hdrop : (l.drop (l.length - n)).reverse = l.reverse.take n := by
      rw [List.reverse_drop]
      congr 1
      omega
    rw [← any_reverse_eq (l.drop (l.length - n)) p, hdrop]
  · have hlen : l.reverse.length ≤ n := by
      rw [List.length_reverse]; omega
    rw [List.take_of_length_le hlen, any_reverse_eq]

/- ----------------------------------------------------------------
   Claim C1: the sentinel matcher's window.
   ---------------------------------------------------------------- -/

/-- C1 counterexample: the claim says the matcher scans the last 3
NON-EMPTY lines. On the output `"RESULT: PASS\n\na\nb"` the sentinel is
among the last 3 non-empty lines (so the claimed property demands `true`),
but `check_sentinel_in_output` scans the last 3 lines of the stripped
output — `["", "a", "b"]`, a window that keeps the interior blank line —
and returns `false`. -/
theorem check_sentinel_nonempty_window_counterexample :
    check_sentinel_in_output "RESULT: PASS\n\na\nb" "RESULT: PASS" = false
      ∧ matches_spec_nonempty "RESULT: PASS\n\na\nb" "RESULT: PASS" = true :=
  ⟨by decide, by decide⟩

/-- C1 (amended): for every output `O` and sentinel `S`, the matcher
returns true iff some line among the last 3 lines of the
whitespace-trimmed output (a window that may contain interior blank
lines) equals `S` case-insensitively after trimming; moreover, on a
5-line output whose only occurrence of the sentinel is the 4th line from
the end it returns false, on empty output it returns false, a substring
occurrence inside a longer line never matches, with fewer than 3 lines
all lines are scanned (2-line output with the sentinel first is a match),
and matching is case-insensitive after trimming. -/
theorem check_sentinel_window_amended :
    (∀ output sentinel : String,
        check_sentinel_in_output output sentinel
          = matches_last3_lines output sentinel)
      ∧ check_sentinel_in_output "a\nRESULT: PASS\nb\nc\nd" "RESULT: PASS" = false
      ∧ check_sentinel_in_output "" "RESULT: PASS" = false
      ∧ check_sentinel_in_output "xx RESULT: PASS yy" "RESULT: PASS" = false
      ∧ check_sentinel_in_output "RESULT: PASS\nlast" PASS_SENTINEL = true
      ∧ check_sentinel_in_output "x\n  result: pass  " PASS_SENTINEL = true := by
  refine ⟨?_, by decide, by decide, by decide, by decide, by decide⟩
  intro output sentinel
  simp only [check_sentinel_in_output, matches_last3_lines]
  exact lastWindow_any _ _ _

/- ----------------------------------------------------------------
   core/models.py
   ---------------------------------------------------------------- -/

/-- `TaskStatus` from `core/models.py`. -/
inductive TaskStatus
  | ENQUEUED
  | RUNNING
  | COMPLETED
  | FAILED
  deriving DecidableEq, Repr

/-- `UiEvent` from `core/models.py` (`kind`, `task_id`, `payload`); the
task identifier is represented by its hex string. -/
structure UiEvent where
  kind : String
  taskId : String
  payload : String
  deriving DecidableEq, Repr

/-- `TaskItem` from `core/models.py`, restricted to the fields the
pipeline reads (`id.hex`, `project_root`, `description`); a fresh task
has status `ENQUEUED`. -/
structure TaskItem where
  idHex : String
  projectRoot : String
  description : String
  deriving DecidableEq, Repr

/-- Rank of a status in the forward-only state machine
ENQUEUED → RUNNING → {COMPLETED, FAILED}. -/
def statusRank : TaskStatus → Nat
  | TaskStatus.ENQUEUED => 0
  | TaskStatus.RUNNING => 1
  | TaskStatus.COMPLETED => 2
  | TaskStatus.FAILED => 2

/-- Terminal statuses. -/
def TaskStatus.isTerminal : TaskStatus → Bool
  | TaskStatus.COMPLETED => true
  | TaskStatus.FAILED => true
  | _ => false

/- ----------------------------------------------------------------
   core/manager.py: the TaskManager pipeline.

   One external invocation of the adapter (`ClaudeClient.run` /
   `run_with_sentinel`) either returns output text or raises; the raised
   exception is represented by its message.
   ---------------------------------------------------------------- -/

/-- Outcome of one adapter invocation. -/
inductive ExecResult
  | ok (output : String)
  | err (msg : String)
  deriving DecidableEq, Repr

/-- The pipeline's environment: `exec n` is the outcome of the n-th
adapter invocation of the job; `putOk n` tells whether the n-th
`ui_queue.put` succeeds (raises no exception); `maxAttempts` is the
`TaskManager` constructor argument (default 3). -/
structure PipelineEnv where
  exec : Nat → ExecResult
  putOk : Nat → Bool
  maxAttempts : Nat

/-- Observable state threaded through one `_process_task` run:
the task's status field and the trace of all assignments to it, the
events handed to `_emit_ui_event` (in order), the subset of them whose
`put` succeeded (the UI queue's content), the emission counter, the set
of directories existing on disk, the file writes (path, content) in
order, and the number of adapter invocations performed. -/
structure PState where
  status : TaskStatus
  statusTrace : List TaskStatus
  events : List UiEvent
  delivered : List UiEvent
  emitCount : Nat
  fs : List String
  files : List (String × String)
  invCount : Nat

/-- `task.status = st` (recorded in the trace). -/
def setStatus (s : PState) (st : TaskStatus) : PState :=
  { s with status := st, statusTrace := s.statusTrace ++ [st] }

/-- `file.write_text(content)`. -/
def writeFile (s : PState) (path content : String) : PState :=
  { s with files := s.files ++ [(path, content)] }

/-- Event construction in `_emit_ui_event`. -/
def mkEvent (kind : String) (task : TaskItem) (payload : String) : UiEvent :=
  ⟨kind, task.idHex, payload⟩

/-- `TaskManager._emit_ui_event`: constructs the event and puts it on the
UI queue; a failing put is logged and swallowed, so the pipeline state
other than the queue's content advances identically either way. -/
def emit (env : PipelineEnv) (task : TaskItem) (s : PState)
    (kind payload : String) : PState :=
  let e := mkEvent kind task payload
  { s with
    events := s.events ++ [e]
    delivered := if env.putOk s.emitCount then s.delivered ++ [e] else s.delivered
    emitCount := s.emitCount + 1 }

/-- One `await client.run(...)` (or the run inside `run_with_sentinel`):
counts the invocation and yields the external outcome. -/
def invoke (env : PipelineEnv) (s : PState) : PState × ExecResult :=
  ({ s with invCount := s.invCount + 1 }, env.exec s.invCount)

/-- `task.id.hex[:8]`. -/
def shortId (task : TaskItem) : String := task.idHex.take 8

def statusPayload (task : TaskItem) : String :=
  "[" ++ shortId task ++ "] status → RUNNING"

def step1StepPayload (task : TaskItem) : String :=
  "[" ++ shortId task ++ "] step 1: Analyzing scope..."

def step1CompletePayload (task : TaskItem) : String :=
  "[" ++ shortId task ++ "] step 1: ✅ analysis complete"

def step2StepPayload (task : TaskItem) : String :=
  "[" ++ shortId task ++ "] step 2: Generating failing tests..."

def step2CompletePayload (task : TaskItem) : String :=
  "[" ++ shortId task ++ "] step 2: ✅ tests written"

def step2WarningPayload (task : TaskItem) : String :=
  "[" ++ shortId task ++ "] step 2: ⚠️ sentinel missing, continuing"

def step3StepPayload (task : TaskItem) : String :=
  "[" ++ shortId task ++ "] step 3: Fixing and running tests..."

def attemptPayload (task : TaskItem) (attempt maxAttempts : Nat) : String :=
  "[" ++ shortId task ++ "] step 3: attempt " ++ toString attempt ++ "/"
    ++ toString maxAttempts

def completedPayload (task : TaskItem) : String :=
  "[" ++ shortId task ++ "] ✅ done: RESULT: PASS"

def failedPayload (task : TaskItem) : String :=
  "[" ++ shortId task ++ "] ❌ failed: max attempts reached"

def errorPayload (task : TaskItem) (e : String) : String :=
  "[" ++ shortId task ++ "] ❌ failed: " ++ e

/-- `project_root / "test_bugfix"` in `_process_task`. -/
def testsDirOf (projectRoot : String) : String :=
  projectRoot ++ "/test_bugfix"

/-- `project_root / ".claude_tasks" / f"item_{task.id.hex}"` in
`_process_task`. -/
def artifactsDirOf (projectRoot idHex : String) : String :=
  projectRoot ++ "/.claude_tasks/item_" ++ idHex

/-- The per-job artifact directory claimed by the specification
(`.pipeline_artifacts`), stated for comparison with `artifactsDirOf`,
which is translated from the source. -/
def specArtifactsDirOf (projectRoot idHex : String) : String :=
  projectRoot ++ "/.pipeline_artifacts/item_" ++ idHex

/-- `Path.mkdir(parents=True, exist_ok=exist_ok)` on a directory set:
with `exist_ok = False` an existing directory raises `FileExistsError`,
otherwise creation is idempotent. -/
def mkdir (fs : List String) (path : String) (exist_ok : Bool) :
    Except String (List String) :=
  if path ∈ fs then
    (if exist_ok then Except.ok fs else Except.error "FileExistsError")
  else Except.ok (path :: fs)

/-- The total function the pipeline's `mkdir(parents=True, exist_ok=True)`
calls amount to. -/
def mkdir_exist_ok (fs : List String) (path : String) : List String :=
  if path ∈ fs then fs else path :: fs

/-- `TaskManager._execute_step1`: emit the `step` event, invoke the
adapter, persist the raw output to `step1.md`, emit `step_complete`.
An adapter failure propagates (`some msg`). -/
def execute_step1 (env : PipelineEnv) (task : TaskItem) (step1File : String)
    (s : PState) : PState × Option String :=
  let s1 := emit env task s "step" (step1StepPayload task)
  let p := invoke env s1
  match p.2 with
  | ExecResult.err e => (p.1, some e)
  | ExecResult.ok output =>
      let s2 := writeFile p.1 step1File output
      (emit env task s2 "step_complete" (step1CompletePayload task), none)

/-- `TaskManager._execute_step2`: emit the `step` event, invoke with the
`STEP2_SENTINEL` check, persist the output to `step2.md`, then emit
`step_complete` if the sentinel was found and `warning` otherwise; a
missing sentinel is not a failure. -/
def execute_step2 (env : PipelineEnv) (task : TaskItem) (step2File : String)
    (s : PState) : PState × Option String :=
  let s1 := emit env task s "step" (step2StepPayload task)
  let p := invoke env s1
  match p.2 with
  | ExecResult.err e => (p.1, some e)
  | ExecResult.ok output =>
      let sentinel_found := check_sentinel_in_output output STEP2_SENTINEL
      let s2 := writeFile p.1 step2File output
      if sentinel_found then
        (emit env task s2 "step_complete" (step2CompletePayload task), none)
      else
        (emit env task s2 "warning" (step2WarningPayload task), none)

/-- One labeled attempt block appended to `attempt_logs`:
`f"--- Attempt {attempt} ---\n{output}\n"`. -/
def attemptBlock (attempt : Nat) (output : String) : String :=
  "--- Attempt " ++ toString attempt ++ " ---\n" ++ output ++ "\n"

/-- The `for attempt in range(1, max_attempts + 1)` loop of
`_execute_step3`: emit the `attempt` event, invoke with the
`PASS_SENTINEL` check, append the attempt block, and stop as soon as the
sentinel is found. `remaining` counts the attempts left; the result is
the accumulated logs together with the `passed` flag, or the propagated
adapter failure. -/
def step3_attempts (env : PipelineEnv) (task : TaskItem) (s : PState)
    (attempt remaining : Nat) (logs : List String) :
    PState × Except String (List String × Bool) :=
  match remaining with
  | 0 => (s, Except.ok (logs, false))
  | r + 1 =>
      let s1 := emit env task s "attempt"
        (attemptPayload task attempt env.maxAttempts)
      let p := invoke env s1
      match p.2 with
      | ExecResult.err e => (p.1, Except.error e)
      | ExecResult.ok output =>
          let logs1 := logs ++ [attemptBlock attempt output]
          if check_sentinel_in_output output PASS_SENTINEL then
            (p.1, Except.ok (logs1, true))
          else
            step3_attempts env task p.1 (attempt + 1) r logs1

/-- `TaskManager._execute_step3`: emit the `step` event, run the bounded
retry loop, write the accumulated attempt log to `step3.md` in one write
after the loop, then set COMPLETED/`completed` or FAILED/`failed`. -/
def execute_step3 (env : PipelineEnv) (task : TaskItem) (step3File : String)
    (s : PState) : PState × Option String :=
  let s1 := emit env task s "step" (step3StepPayload task)
  let p := step3_attempts env task s1 1 env.maxAttempts []
  match p.2 with
  | Except.error e => (p.1, some e)
  | Except.ok (logs, passed) =>
      let s2 := writeFile p.1 step3File (String.join logs)
      if passed then
        let s3 := setStatus s2 TaskStatus.COMPLETED
        (emit env task s3 "completed" (completedPayload task), none)
      else
        let s3 := setStatus s2 TaskStatus.FAILED
        (emit env task s3 "failed" (failedPayload task), none)

/-- The `except` clause of `_process_task`: set the task FAILED and emit
the single `error` event carrying the exception's message. -/
def failWith (env : PipelineEnv) (task : TaskItem) (s : PState)
    (e : String) : PState :=
  emit env task (setStatus s TaskStatus.FAILED) "error" (errorPayload task e)

/-- Fresh state at the start of `_process_task` (the submitted task has
status ENQUEUED; the disk holds `fs0`). -/
def initState (fs0 : List String) : PState :=
  { status := TaskStatus.ENQUEUED
    statusTrace := []
    events := []
    delivered := []
    emitCount := 0
    fs := fs0
    files := []
    invCount := 0 }

/-- The head of `_process_task`'s try block: `task.status = RUNNING`, the
`status` event, and the two idempotent directory creations
(`tests_dir.mkdir(parents=True, exist_ok=True)` and
`artifacts_dir.mkdir(parents=True, exist_ok=True)`). -/
def setupState (env : PipelineEnv) (task : TaskItem) (fs0 : List String) :
    PState :=
  let s0 := setStatus (initState fs0) TaskStatus.RUNNING
  let s1 := emit env task s0 "status" (statusPayload task)
  let s2 := { s1 with fs := mkdir_exist_ok s1.fs (testsDirOf task.projectRoot) }
  { s2 with
    fs := mkdir_exist_ok s2.fs (artifactsDirOf task.projectRoot task.idHex) }

/-- `artifacts_dir / "step1.md"`. -/
def step1FileOf (task : TaskItem) : String :=
  artifactsDirOf task.projectRoot task.idHex ++ "/step1.md"

/-- `artifacts_dir / "step2.md"`. -/
def step2FileOf (task : TaskItem) : String :=
  artifactsDirOf task.projectRoot task.idHex ++ "/step2.md"

/-- `artifacts_dir / "step3.md"`. -/
def step3FileOf (task : TaskItem) : String :=
  artifactsDirOf task.projectRoot task.idHex ++ "/step3.md"

/-- `TaskManager._process_task`: set RUNNING, emit the `status` event,
create the test and artifact directories, then run steps 1, 2 and 3 in
order; any exception surfacing from a step sends the job to the `except`
clause (`failWith`). -/
def process_task (env : PipelineEnv) (task : TaskItem) (fs0 : List String) :
    PState :=
  let s := setupState env task fs0
  let p1 := execute_step1 env task (step1FileOf task) s
  match p1.2 with
  | some e => failWith env task p1.1 e
  | none =>
      let p2 := execute_step2 env task (step2FileOf task) p1.1
      match p2.2 with
      | some e => failWith env task p2.1 e
      | none =>
          let p3 := execute_step3 env task (step3FileOf task) p2.1
          match p3.2 with
          | some e => failWith env task p3.1 e
          | none => p3.1

/-- `TaskManager._worker_loop`: one worker awaits `_process_task` on each
dequeued task before taking the next, so the events of the jobs appear
in submission order; the directory state is threaded across jobs. -/
def run_jobs (env : PipelineEnv) (tasks : List TaskItem) (fs0 : List String) :
    List UiEvent :=
  match tasks with
  | [] => []
  | t :: rest =>
      let s := process_task env t fs0
      s.events ++ run_jobs env rest s.fs

/-- The try/except of `_emit_ui_event` in isolation: the `put` may raise
(its outcome is the argument); the exception is logged and swallowed, so
the emitter always returns normally. -/
def emit_ui_event_outcome (putResult : Except String Unit) :
    Except String Unit :=
  match putResult with
  | Except.ok _ => Except.ok ()
  | Except.error _ => Except.ok ()

/- ----------------------------------------------------------------
   claude/client.py: ClaudeClient.run
   ---------------------------------------------------------------- -/

/-- Behaviour of the external `claude` process for one invocation: its
exit status, captured standard output and error streams, and how many
time-units it takes to complete. -/
structure ProcessBehavior where
  returncode : Int
  stdout : String
  stderr : String
  duration : Nat
  deriving DecidableEq, Repr

/-- The message of the dead `asyncio.TimeoutError` handler in
`ClaudeClient.run`. -/
def timeoutErrorMessage (timeout : Nat) : String :=
  "Claude CLI command timed out after " ++ toString timeout ++ " seconds"

/-- The message `ClaudeClient.run` raises for a non-zero exit status: the
inner `ClaudeCLIError` (exit code and captured stderr) re-wrapped by the
generic `except Exception` clause. -/
def execErrorMessage (rc : Int) (stderr : String) : String :=
  "Failed to execute Claude CLI: Claude CLI failed with exit code "
    ++ toString rc ++ ": " ++ stderr

set_option linter.unusedVariables false in
/-- `ClaudeClient.run` from `claude/client.py`: awaits
`proc.communicate()` — note the source never wraps that await in
`asyncio.wait_for`, so the `timeout` argument and the process's duration
are never consulted — then raises for a non-zero exit status and returns
the decoded stdout otherwise. -/
def ClaudeClient_run (timeout : Nat) (proc : ProcessBehavior) :
    Except String String :=
  if proc.returncode ≠ 0 then
    Except.error (execErrorMessage proc.returncode proc.stderr)
  else
    Except.ok proc.stdout

/- ----------------------------------------------------------------
   Projection lemmas: how each primitive changes the observable state.
   ---------------------------------------------------------------- -/

@[simp] theorem emit_status (env : PipelineEnv) (task : TaskItem) (s : PState)
    (k p : String) : (emit env task s k p).status = s.status := rfl
@[simp] theorem emit_statusTrace (env : PipelineEnv) (task : TaskItem)
    (s : PState) (k p : String) :
    (emit env task s k p).statusTrace = s.statusTrace := rfl
@[simp] theorem emit_fs (env : PipelineEnv) (task : TaskItem) (s : PState)
    (k p : String) : (emit env task s k p).fs = s.fs := rfl
@[simp] theorem emit_files (env : PipelineEnv) (task : TaskItem) (s : PState)
    (k p : String) : (emit env task s k p).files = s.files := rfl
@[simp] theorem emit_invCount (env : PipelineEnv) (task : TaskItem) (s : PState)
    (k p : String) : (emit env task s k p).invCount = s.invCount := rfl
@[simp] theorem emit_emitCount (env : PipelineEnv) (task : TaskItem) (s : PState)
    (k p : String) : (emit env task s k p).emitCount = s.emitCount + 1 := rfl
@[simp] theorem emit_events (env : PipelineEnv) (task : TaskItem) (s : PState)
    (k p : String) : (emit env task s k p).events = s.events ++ [mkEvent k task p] := rfl

@[simp] theorem invoke_snd (env : PipelineEnv) (s : PState) :
    (invoke env s).2 = env.exec s.invCount := rfl
@[simp] theorem invoke_fst_status (env : PipelineEnv) (s : PState) :
    (invoke env s).1.status = s.status := rfl
@[simp] theorem invoke_fst_statusTrace (env : PipelineEnv) (s : PState) :
    (invoke env s).1.statusTrace = s.statusTrace := rfl
@[simp] theorem invoke_fst_fs (env : PipelineEnv) (s : PState) :
    (invoke env s).1.fs = s.fs := rfl
@[simp] theorem invoke_fst_files (env : PipelineEnv) (s : PState) :
    (invoke env s).1.files = s.files := rfl
@[simp] theorem invoke_fst_events (env : PipelineEnv) (s : PState) :
    (invoke env s).1.events = s.events := rfl
@[simp] theorem invoke_fst_emitCount (env : PipelineEnv) (s : PState) :
    (invoke env s).1.emitCount = s.emitCount := rfl
@[simp] theorem invoke_fst_invCount (env : PipelineEnv) (s : PState) :
    (invoke env s).1.invCount = s.invCount + 1 := rfl
@[simp] theorem invoke_fst_delivered (env : PipelineEnv) (s : PState) :
    (invoke env s).1.delivered = s.delivered := rfl

@[simp] theorem writeFile_status (s : PState) (path content : String) :
    (writeFile s path content).status = s.status := rfl
@[simp] theorem writeFile_statusTrace (s : PState) (path content : String) :
    (writeFile s path content).statusTrace = s.statusTrace := rfl
@[simp] theorem writeFile_fs (s : PState) (path content : String) :
    (writeFile s path content).fs = s.fs := rfl
@[simp] theorem writeFile_files (s : PState) (path content : String) :
    (writeFile s path content).files = s.files ++ [(path, content)] := rfl
@[simp] theorem writeFile_invCount (s : PState) (path content : String) :
    (writeFile s path content).invCount = s.invCount := rfl
@[simp] theorem writeFile_emitCount (s : PState) (path content : String) :
    (writeFile s path content).emitCount = s.emitCount := rfl
@[simp] theorem writeFile_events (s : PState) (path content : String) :
    (writeFile s path content).events = s.events := rfl
@[simp] theorem writeFile_delivered (s : PState) (path content : String) :
    (writeFile s path content).delivered = s.delivered := rfl

@[simp] theorem setStatus_status (s : PState) (st : TaskStatus) :
    (setStatus s st).status = st := rfl
@[simp] theorem setStatus_statusTrace (s : PState) (st : TaskStatus) :
    (setStatus s st).statusTrace = s.statusTrace ++ [st] := rfl
@[simp] theorem setStatus_fs (s : PState) (st : TaskStatus) :
    (setStatus s st).fs = s.fs := rfl
@[simp] theorem setStatus_files (s : PState) (st : TaskStatus) :
    (setStatus s st).files = s.files := rfl
@[simp] theorem setStatus_invCount (s : PState) (st : TaskStatus) :
    (setStatus s st).invCount = s.invCount := rfl
@[simp] theorem setStatus_emitCount (s : PState) (st : TaskStatus) :
    (setStatus s st).emitCount = s.emitCount := rfl
@[simp] theorem setStatus_events (s : PState) (st : TaskStatus) :
    (setStatus s st).events = s.events := rfl
@[simp] theorem setStatus_delivered (s : PState) (st : TaskStatus) :
    (setStatus s st).delivered = s.delivered := rfl

/- ----------------------------------------------------------------
   List helpers for the retry-loop lemmas.
   ---------------------------------------------------------------- -/

theorem cons_map_range_shift {α : Type} (f : Nat → α) (r : Nat) :
    f 0 :: (List.range r).map (fun j => f (j + 1)) = (List.range (r + 1)).map f := by
  rw [List.range_succ_eq_map, List.map_cons, List.map_map]
  rfl

theorem append_singleton_map_range {α : Type} (x : α) (g : Nat → α) (r : Nat)
    (f : Nat → α) (hx : x = f 0) (hg : ∀ j, g j = f (j + 1)) :
    x :: (List.range r).map g = (List.range (r + 1)).map f := by
  subst hx
  rw [← cons_map_range_shift]
  congr 1
  apply List.map_congr_left
  intro j _
  exact hg j

/-- The step-3 loop when the PASS sentinel is absent from the next `r`
outputs: all `r` attempts run, each appending its labeled block and its
`attempt` event, and the loop reports `passed = false`; status, files,
directories are untouched. -/
theorem step3_attempts_no_pass (env : PipelineEnv) (task : TaskItem)
    (outs : Nat → String) :
    ∀ (r : Nat) (s : PState) (a : Nat) (logs : List String),
    (∀ j, j < r → env.exec (s.invCount + j) = ExecResult.ok (outs (s.invCount + j))) →
    (∀ j, j < r →
      check_sentinel_in_output (outs (s.invCount + j)) PASS_SENTINEL = false) →
    (step3_attempts env task s a r logs).2
        = Except.ok
            (logs ++ (List.range r).map
              (fun j => attemptBlock (a + j) (outs (s.invCount + j))), false)
      ∧ (step3_attempts env task s a r logs).1.invCount = s.invCount + r
      ∧ (step3_attempts env task s a r logs).1.status = s.status
      ∧ (step3_attempts env task s a r logs).1.statusTrace = s.statusTrace
      ∧ (step3_attempts env task s a r logs).1.files = s.files
      ∧ (step3_attempts env task s a r logs).1.fs = s.fs
      ∧ (step3_attempts env task s a r logs).1.events
          = s.events ++ (List.range r).map
              (fun j => mkEvent "attempt" task
                (attemptPayload task (a + j) env.maxAttempts)) := by
  intro r
  induction r with
  | zero =>
      intro s a logs _ _
      simp [step3_attempts]
  | succ r ih =>
      intro s a logs hexec hcheck
      have h0 : env.exec s.invCount = ExecResult.ok (outs s.invCount) := by
        have := hexec 0 (Nat.succ_pos r)
        simpa using this
      have hc0 : check_sentinel_in_output (outs s.invCount) PASS_SENTINEL = false := by
        have := hcheck 0 (Nat.succ_pos r)
        simpa using this
      have hstep :
          step3_attempts env task s a (r + 1) logs
            = step3_attempts env task
                (invoke env (emit env task s "attempt"
                  (attemptPayload task a env.maxAttempts))).1
                (a + 1) r (logs ++ [attemptBlock a (outs s.invCount)]) := by
        conv_lhs => rw [step3_attempts]
        simp only [invoke_snd, emit_invCount, h0, hc0]
        simp [hc0]
      have key := ih
        (invoke env (emit env task s "attempt"
          (attemptPayload task a env.maxAttempts))).1
        (a + 1) (logs ++ [attemptBlock a (outs s.invCount)])
        (by
          intro j hj
          simp only [invoke_fst_invCount, emit_invCount]
          have := hexec (j + 1) (by omega)
          have e : s.invCount + (j + 1) = s.invCount + 1 + j := by omega
          rw [e] at this
          exact this)
        (by
          intro j hj
          simp only [invoke_fst_invCount, emit_invCount]
          have := hcheck (j + 1) (by omega)
          have e : s.invCount + (j + 1) = s.invCount + 1 + j := by omega
          rw [e] at this
          exact this)
      simp only [invoke_fst_invCount, emit_invCount, invoke_fst_status,
        emit_status, invoke_fst_statusTrace, emit_statusTrace,
        invoke_fst_files, emit_files, invoke_fst_fs, emit_fs,
        invoke_fst_events, emit_events] at key
      obtain ⟨h1, h2, h3, h4, h5, h6, h7⟩ := key
      rw [hstep]
      refine ⟨?_, ?_, by simpa using h3, by simpa using h4,
        by simpa using h5, by simpa using h6, ?_⟩
      · rw [h1, List.append_assoc, List.singleton_append]
        have hl : attemptBlock a (outs s.invCount)
              :: (List.range r).map
                (fun j => attemptBlock (a + 1 + j) (outs (s.invCount + 1 + j)))
            = (List.range (r + 1)).map
                (fun j => attemptBlock (a + j) (outs (s.invCount + j))) := by
          apply append_singleton_map_range
          · simp
          · intro j
            have e1 : a + 1 + j = a + (j + 1) := by omega
            have e2 : s.invCount + 1 + j = s.invCount + (j + 1) := by omega
            rw [e1, e2]
        rw [hl]
      · rw [h2]; omega
      · rw [h7, List.append_assoc, List.singleton_append]
        have hl : mkEvent "attempt" task (attemptPayload task a env.maxAttempts)
              :: (List.range r).map
                (fun j => mkEvent "attempt" task
                  (attemptPayload task (a + 1 + j) env.maxAttempts))
            = (List.range (r + 1)).map
                (fun j => mkEvent "attempt" task
                  (attemptPayload task (a + j) env.maxAttempts)) := by
          apply append_singleton_map_range
          · simp
          · intro j
            have e1 : a + 1 + j = a + (j + 1) := by omega
            rw [e1]
        rw [hl]

/-- The step-3 loop when the PASS sentinel first appears in output `k`
(0-based) with `k` within the remaining budget: attempts stop right
there, having appended `k + 1` blocks and `k + 1` attempt events, and
the loop reports `passed = true`. -/
theorem step3_attempts_found (env : PipelineEnv) (task : TaskItem)
    (outs : Nat → String) :
    ∀ (k r : Nat) (s : PState) (a : Nat) (logs : List String),
    k < r →
    (∀ j, j ≤ k → env.exec (s.invCount + j) = ExecResult.ok (outs (s.invCount + j))) →
    (∀ j, j < k →
      check_sentinel_in_output (outs (s.invCount + j)) PASS_SENTINEL = false) →
    check_sentinel_in_output (outs (s.invCount + k)) PASS_SENTINEL = true →
    (step3_attempts env task s a r logs).2
        = Except.ok
            (logs ++ (List.range (k + 1)).map
              (fun j => attemptBlock (a + j) (outs (s.invCount + j))), true)
      ∧ (step3_attempts env task s a r logs).1.invCount = s.invCount + (k + 1)
      ∧ (step3_attempts env task s a r logs).1.status = s.status
      ∧ (step3_attempts env task s a r logs).1.statusTrace = s.statusTrace
      ∧ (step3_attempts env task s a r logs).1.files = s.files
      ∧ (step3_attempts env task s a r logs).1.fs = s.fs
      ∧ (step3_attempts env task s a r logs).1.events
          = s.events ++ (List.range (k + 1)).map
              (fun j => mkEvent "attempt" task
                (attemptPayload task (a + j) env.maxAttempts)) := by
  intro k
  induction k with
  | zero =>
      intro r s a logs hkr hexec _ hfound
      obtain ⟨r', rfl⟩ : ∃ r', r = r' + 1 := ⟨r - 1, by omega⟩
      have h0 : env.exec s.invCount = ExecResult.ok (outs s.invCount) := by
        have := hexec 0 (Nat.le_refl 0)
        simpa using this
      have hf0 : check_sentinel_in_output (outs s.invCount) PASS_SENTINEL = true := by
        simpa using hfound
      have hstep :
          step3_attempts env task s a (r' + 1) logs
            = ((invoke env (emit env task s "attempt"
                  (attemptPayload task a env.maxAttempts))).1,
               Except.ok (logs ++ [attemptBlock a (outs s.invCount)], true)) := by
        conv_lhs => rw [step3_attempts]
        simp [invoke_snd, emit_invCount, h0, hf0]
      rw [hstep]
      refine ⟨?_, ?_, ?_, ?_, ?_, ?_, ?_⟩ <;>
        simp [List.range_succ, mkEvent]
  | succ k ih =>
      intro r s a logs hkr hexec hcheck hfound
      obtain ⟨r', rfl⟩ : ∃ r', r = r' + 1 := ⟨r - 1, by omega⟩
      have h0 : env.exec s.invCount = ExecResult.ok (outs s.invCount) := by
        have := hexec 0 (Nat.zero_le _)
        simpa using this
      have hc0 : check_sentinel_in_output (outs s.invCount) PASS_SENTINEL = false := by
        have := hcheck 0 (Nat.succ_pos k)
        simpa using this
      have hstep :
          step3_attempts env task s a (r' + 1) logs
            = step3_attempts env task
                (invoke env (emit env task s "attempt"
                  (attemptPayload task a env.maxAttempts))).1
                (a + 1) r' (logs ++ [attemptBlock a (outs s.invCount)]) := by
        conv_lhs => rw [step3_attempts]
        simp only [invoke_snd, emit_invCount, h0, hc0]
        simp [hc0]
      have key := ih r'
        (invoke env (emit env task s "attempt"
          (attemptPayload task a env.maxAttempts))).1
        (a + 1) (logs ++ [attemptBlock a (outs s.invCount)])
        (by omega)
        (by
          intro j hj
          simp only [invoke_fst_invCount, emit_invCount]
          have := hexec (j + 1) (by omega)
          have e : s.invCount + (j + 1) = s.invCount + 1 + j := by omega
          rw [e] at this
          exact this)
        (by
          intro j hj
          simp only [invoke_fst_invCount, emit_invCount]
          have := hcheck (j + 1) (by omega)
          have e : s.invCount + (j + 1) = s.invCount + 1 + j := by omega
          rw [e] at this
          exact this)
        (by
          simp only [invoke_fst_invCount, emit_invCount]
          have e : s.invCount + 1 + k = s.invCount + (k + 1) := by omega
          rw [e]
          exact hfound)
      simp only [invoke_fst_invCount, emit_invCount, invoke_fst_status,
        emit_status, invoke_fst_statusTrace, emit_statusTrace,
        invoke_fst_files, emit_files, invoke_fst_fs, emit_fs,
        invoke_fst_events, emit_events] at key
      obtain ⟨h1, h2, h3, h4, h5, h6, h7⟩ := key
      rw [hstep]
      refine ⟨?_, ?_, by simpa using h3, by simpa using h4,
        by simpa using h5, by simpa using h6, ?_⟩
      · rw [h1, List.append_assoc, List.singleton_append]
        have hl : attemptBlock a (outs s.invCount)
              :: (List.range (k + 1)).map
                (fun j => attemptBlock (a + 1 + j) (outs (s.invCount + 1 + j)))
            = (List.range (k + 1 + 1)).map
                (fun j => attemptBlock (a + j) (outs (s.invCount + j))) := by
          apply append_singleton_map_range
          · simp
          · intro j
            have e1 : a + 1 + j = a + (j + 1) := by omega
            have e2 : s.invCount + 1 + j = s.invCount + (j + 1) := by omega
            rw [e1, e2]
        rw [hl]
      · rw [h2]; omega
      · rw [h7, List.append_assoc, List.singleton_append]
        have hl : mkEvent "attempt" task (attemptPayload task a env.maxAttempts)
              :: (List.range (k + 1)).map
                (fun j => mkEvent "attempt" task
                  (attemptPayload task (a + 1 + j) env.maxAttempts))
            = (List.range (k + 1 + 1)).map
                (fun j => mkEvent "attempt" task
                  (attemptPayload task (a + j) env.maxAttempts)) := by
          apply append_singleton_map_range
          · simp
          · intro j
            have e1 : a + 1 + j = a + (j + 1) := by omega
            rw [e1]
        rw [hl]

@[simp] theorem initState_status (fs0 : List String) :
    (initState fs0).status = TaskStatus.ENQUEUED := rfl
@[simp] theorem initState_statusTrace (fs0 : List String) :
    (initState fs0).statusTrace = [] := rfl
@[simp] theorem initState_events (fs0 : List String) :
    (initState fs0).events = [] := rfl
@[simp] theorem initState_delivered (fs0 : List String) :
    (initState fs0).delivered = [] := rfl
@[simp] theorem initState_emitCount (fs0 : List String) :
    (initState fs0).emitCount = 0 := rfl
@[simp] theorem initState_fs (fs0 : List String) :
    (initState fs0).fs = fs0 := rfl
@[simp] theorem initState_files (fs0 : List String) :
    (initState fs0).files = [] := rfl
@[simp] theorem initState_invCount (fs0 : List String) :
    (initState fs0).invCount = 0 := rfl

/-- The event step 2 ends with: `step_complete` when the sentinel was
found, `warning` otherwise. -/
def step2ResultEvent (task : TaskItem) (found : Bool) : UiEvent :=
  if found then mkEvent "step_complete" task (step2CompletePayload task)
  else mkEvent "warning" task (step2WarningPayload task)

theorem execute_step1_err (env : PipelineEnv) (task : TaskItem)
    (step1File : String) (s : PState) (e : String)
    (h : env.exec s.invCount = ExecResult.err e) :
    execute_step1 env task step1File s
      = ((invoke env (emit env task s "step" (step1StepPayload task))).1,
         some e) := by
  simp only [execute_step1, invoke_snd, emit_invCount, h]

theorem execute_step1_ok (env : PipelineEnv) (task : TaskItem)
    (step1File : String) (s : PState) (o : String)
    (h : env.exec s.invCount = ExecResult.ok o) :
    execute_step1 env task step1File s
      = (emit env task
           (writeFile
             (invoke env (emit env task s "step" (step1StepPayload task))).1
             step1File o)
           "step_complete" (step1CompletePayload task),
         none) := by
  simp only [execute_step1, invoke_snd, emit_invCount, h]

theorem execute_step2_err (env : PipelineEnv) (task : TaskItem)
    (step2File : String) (s : PState) (e : String)
    (h : env.exec s.invCount = ExecResult.err e) :
    execute_step2 env task step2File s
      = ((invoke env (emit env task s "step" (step2StepPayload task))).1,
         some e) := by
  simp only [execute_step2, invoke_snd, emit_invCount, h]

theorem execute_step2_ok (env : PipelineEnv) (task : TaskItem)
    (step2File : String) (s : PState) (o : String)
    (h : env.exec s.invCount = ExecResult.ok o) :
    execute_step2 env task step2File s
      = (if check_sentinel_in_output o STEP2_SENTINEL then
           emit env task
             (writeFile
               (invoke env (emit env task s "step" (step2StepPayload task))).1
               step2File o)
             "step_complete" (step2CompletePayload task)
         else
           emit env task
             (writeFile
               (invoke env (emit env task s "step" (step2StepPayload task))).1
               step2File o)
             "warning" (step2WarningPayload task),
         none) := by
  simp only [execute_step2, invoke_snd, emit_invCount, h]
  split <;> rfl

/-- The retry loop never changes status, the status trace, the files
written so far, or the directories, whatever the adapter does. -/
theorem step3_attempts_frame (env : PipelineEnv) (task : TaskItem) :
    ∀ (r : Nat) (s : PState) (a : Nat) (logs : List String),
    (step3_attempts env task s a r logs).1.status = s.status
      ∧ (step3_attempts env task s a r logs).1.statusTrace = s.statusTrace
      ∧ (step3_attempts env task s a r logs).1.files = s.files
      ∧ (step3_attempts env task s a r logs).1.fs = s.fs := by
  intro r
  induction r with
  | zero =>
      intro s a logs
      simp [step3_attempts]
  | succ r ih =>
      intro s a logs
      rcases h : env.exec s.invCount with o | e
      · by_cases hc : check_sentinel_in_output o PASS_SENTINEL
        · have hstep :
              step3_attempts env task s a (r + 1) logs
                = ((invoke env (emit env task s "attempt"
                      (attemptPayload task a env.maxAttempts))).1,
                   Except.ok (logs ++ [attemptBlock a o], true)) := by
            conv_lhs => rw [step3_attempts]
            simp [invoke_snd, emit_invCount, h, hc]
          rw [hstep]
          simp
        · have hstep :
              step3_attempts env task s a (r + 1) logs
                = step3_attempts env task
                    (invoke env (emit env task s "attempt"
                      (attemptPayload task a env.maxAttempts))).1
                    (a + 1) r (logs ++ [attemptBlock a o]) := by
            conv_lhs => rw [step3_attempts]
            simp [invoke_snd, emit_invCount, h, hc]
          rw [hstep]
          have key := ih
            (invoke env (emit env task s "attempt"
              (attemptPayload task a env.maxAttempts))).1
            (a + 1) (logs ++ [attemptBlock a o])
          simpa using key
      · have hstep :
            step3_attempts env task s a (r + 1) logs
              = ((invoke env (emit env task s "attempt"
                    (attemptPayload task a env.maxAttempts))).1,
                 Except.error e) := by
          conv_lhs => rw [step3_attempts]
          simp [invoke_snd, emit_invCount, h]
        rw [hstep]
        simp

@[simp] theorem setupState_status (env : PipelineEnv) (task : TaskItem)
    (fs0 : List String) :
    (setupState env task fs0).status = TaskStatus.RUNNING := rfl
@[simp] theorem setupState_statusTrace (env : PipelineEnv) (task : TaskItem)
    (fs0 : List String) :
    (setupState env task fs0).statusTrace = [TaskStatus.RUNNING] := rfl
@[simp] theorem setupState_events (env : PipelineEnv) (task : TaskItem)
    (fs0 : List String) :
    (setupState env task fs0).events
      = [mkEvent "status" task (statusPayload task)] := rfl
@[simp] theorem setupState_emitCount (env : PipelineEnv) (task : TaskItem)
    (fs0 : List String) :
    (setupState env task fs0).emitCount = 1 := rfl
@[simp] theorem setupState_fs (env : PipelineEnv) (task : TaskItem)
    (fs0 : List String) :
    (setupState env task fs0).fs
      = mkdir_exist_ok (mkdir_exist_ok fs0 (testsDirOf task.projectRoot))
          (artifactsDirOf task.projectRoot task.idHex) := rfl
@[simp] theorem setupState_files (env : PipelineEnv) (task : TaskItem)
    (fs0 : List String) :
    (setupState env task fs0).files = [] := rfl
@[simp] theorem setupState_invCount (env : PipelineEnv) (task : TaskItem)
    (fs0 : List String) :
    (setupState env task fs0).invCount = 0 := rfl

@[simp] theorem failWith_status (env : PipelineEnv) (task : TaskItem)
    (s : PState) (e : String) :
    (failWith env task s e).status = TaskStatus.FAILED := rfl
@[simp] theorem failWith_statusTrace (env : PipelineEnv) (task : TaskItem)
    (s : PState) (e : String) :
    (failWith env task s e).statusTrace
      = s.statusTrace ++ [TaskStatus.FAILED] := rfl
@[simp] theorem failWith_fs (env : PipelineEnv) (task : TaskItem)
    (s : PState) (e : String) : (failWith env task s e).fs = s.fs := rfl
@[simp] theorem failWith_files (env : PipelineEnv) (task : TaskItem)
    (s : PState) (e : String) : (failWith env task s e).files = s.files := rfl
@[simp] theorem failWith_invCount (env : PipelineEnv) (task : TaskItem)
    (s : PState) (e : String) :
    (failWith env task s e).invCount = s.invCount := rfl
@[simp] theorem failWith_events (env : PipelineEnv) (task : TaskItem)
    (s : PState) (e : String) :
    (failWith env task s e).events
      = s.events ++ [mkEvent "error" task (errorPayload task e)] := rfl

/-- Step 3's wrapper: the possible outcomes of `_execute_step3` — either
it finishes normally and appends exactly one terminal status, or the
adapter failure propagates with the status untouched. -/
theorem execute_step3_shape (env : PipelineEnv) (task : TaskItem)
    (f : String) (s : PState) :
    ((execute_step3 env task f s).2 = none
       ∧ ((execute_step3 env task f s).1.status = TaskStatus.COMPLETED
             ∧ (execute_step3 env task f s).1.statusTrace
                 = s.statusTrace ++ [TaskStatus.COMPLETED]
           ∨ (execute_step3 env task f s).1.status = TaskStatus.FAILED
             ∧ (execute_step3 env task f s).1.statusTrace
                 = s.statusTrace ++ [TaskStatus.FAILED]))
      ∨ (∃ e, (execute_step3 env task f s).2 = some e
          ∧ (execute_step3 env task f s).1.status = s.status
          ∧ (execute_step3 env task f s).1.statusTrace = s.statusTrace) := by
  obtain ⟨hst, htr, hfl, hfs⟩ := step3_attempts_frame env task env.maxAttempts
    (emit env task s "step" (step3StepPayload task)) 1 []
  rcases hp : (step3_attempts env task
      (emit env task s "step" (step3StepPayload task)) 1 env.maxAttempts []).2
    with e | ⟨logs, passed⟩
  · right
    refine ⟨e, ?_, ?_, ?_⟩ <;>
      · simp only [execute_step3, hp]
        try simp [hst, htr]
  · left
    cases passed with
    | false =>
        refine ⟨?_, Or.inr ⟨?_, ?_⟩⟩ <;>
          · simp only [execute_step3, hp]
            try simp [hst, htr]
    | true =>
        refine ⟨?_, Or.inl ⟨?_, ?_⟩⟩ <;>
          · simp only [execute_step3, hp]
            try simp [hst, htr]

/-- Step 1 never touches status, trace, or directories. -/
theorem execute_step1_frame (env : PipelineEnv) (task : TaskItem)
    (f : String) (s : PState) :
    (execute_step1 env task f s).1.status = s.status
      ∧ (execute_step1 env task f s).1.statusTrace = s.statusTrace
      ∧ (execute_step1 env task f s).1.fs = s.fs := by
  rcases h : env.exec s.invCount with o | e
  · rw [execute_step1_ok env task f s o h]
    simp
  · rw [execute_step1_err env task f s e h]
    simp

/-- Step 2 never touches status, trace, or directories. -/
theorem execute_step2_frame (env : PipelineEnv) (task : TaskItem)
    (f : String) (s : PState) :
    (execute_step2 env task f s).1.status = s.status
      ∧ (execute_step2 env task f s).1.statusTrace = s.statusTrace
      ∧ (execute_step2 env task f s).1.fs = s.fs := by
  rcases h : env.exec s.invCount with o | e
  · rw [execute_step2_ok env task f s o h]
    split <;> simp
  · rw [execute_step2_err env task f s e h]
    simp

/-- Every `_process_task` run assigns the status exactly twice: RUNNING,
then one terminal status matching the returned state's status field. -/
theorem process_task_terminal (env : PipelineEnv) (task : TaskItem)
    (fs0 : List String) :
    ((process_task env task fs0).status = TaskStatus.COMPLETED
        ∧ (process_task env task fs0).statusTrace
            = [TaskStatus.RUNNING, TaskStatus.COMPLETED])
      ∨ ((process_task env task fs0).status = TaskStatus.FAILED
        ∧ (process_task env task fs0).statusTrace
            = [TaskStatus.RUNNING, TaskStatus.FAILED]) := by
  obtain ⟨f1st, f1tr, f1fs⟩ :=
    execute_step1_frame env task (step1FileOf task) (setupState env task fs0)
  simp only [process_task]
  rcases h1 : (execute_step1 env task (step1FileOf task)
      (setupState env task fs0)).2 with _ | e
  · obtain ⟨f2st, f2tr, f2fs⟩ := execute_step2_frame env task (step2FileOf task)
      (execute_step1 env task (step1FileOf task) (setupState env task fs0)).1
    rcases h2 : (execute_step2 env task (step2FileOf task)
        (execute_step1 env task (step1FileOf task)
          (setupState env task fs0)).1).2 with _ | e
    · rcases execute_step3_shape env task (step3FileOf task)
          (execute_step2 env task (step2FileOf task)
            (execute_step1 env task (step1FileOf task)
              (setupState env task fs0)).1).1
        with ⟨hnone, hterm⟩ | ⟨e, hsome, hstat, htrace⟩
      · rw [hnone]
        rcases hterm with ⟨hc, htc⟩ | ⟨hf, htf⟩
        · left
          simp [hc, htc, f2tr, f1tr]
        · right
          simp [hf, htf, f2tr, f1tr]
      · rw [hsome]
        right
        simp [htrace, f2tr, f1tr]
    · right
      simp [f2tr, f1tr]
  · right
    simp [f1tr]

theorem mkdir_true_eq (fs : List String) (path : String) :
    mkdir fs path true = Except.ok (mkdir_exist_ok fs path) := by
  simp only [mkdir, mkdir_exist_ok]
  split <;> rfl

theorem mkdir_exist_ok_self_mem (fs : List String) (path : String) :
    path ∈ mkdir_exist_ok fs path := by
  simp only [mkdir_exist_ok]
  split
  · assumption
  · exact List.mem_cons_self path fs

theorem mkdir_exist_ok_mem_mono (fs : List String) (path q : String)
    (h : q ∈ fs) : q ∈ mkdir_exist_ok fs path := by
  simp only [mkdir_exist_ok]
  split
  · exact h
  · exact List.mem_cons_of_mem path h

/-- Step 3 never touches the directory set. -/
theorem execute_step3_frame_fs (env : PipelineEnv) (task : TaskItem)
    (f : String) (s : PState) : (execute_step3 env task f s).1.fs = s.fs := by
  obtain ⟨hst, htr, hfl, hfs⟩ := step3_attempts_frame env task env.maxAttempts
    (emit env task s "step" (step3StepPayload task)) 1 []
  rcases hp : (step3_attempts env task
      (emit env task s "step" (step3StepPayload task)) 1 env.maxAttempts []).2
    with e | ⟨logs, passed⟩
  · simp only [execute_step3, hp]
    simp [hfs]
  · cases passed <;>
      · simp only [execute_step3, hp]
        simp [hfs]

/-- Whatever the adapter does, `_process_task` leaves the directory set
exactly as the two idempotent `mkdir` calls made it. -/
theorem process_task_fs (env : PipelineEnv) (task : TaskItem)
    (fs0 : List String) :
    (process_task env task fs0).fs
      = mkdir_exist_ok (mkdir_exist_ok fs0 (testsDirOf task.projectRoot))
          (artifactsDirOf task.projectRoot task.idHex) := by
  obtain ⟨f1st, f1tr, f1fs⟩ :=
    execute_step1_frame env task (step1FileOf task) (setupState env task fs0)
  simp only [process_task]
  rcases h1 : (execute_step1 env task (step1FileOf task)
      (setupState env task fs0)).2 with _ | e
  · obtain ⟨f2st, f2tr, f2fs⟩ := execute_step2_frame env task (step2FileOf task)
      (execute_step1 env task (step1FileOf task) (setupState env task fs0)).1
    rcases h2 : (execute_step2 env task (step2FileOf task)
        (execute_step1 env task (step1FileOf task)
          (setupState env task fs0)).1).2 with _ | e
    · have h3fs := execute_step3_frame_fs env task (step3FileOf task)
        (execute_step2 env task (step2FileOf task)
          (execute_step1 env task (step1FileOf task)
            (setupState env task fs0)).1).1
      rcases h3 : (execute_step3 env task (step3FileOf task)
          (execute_step2 env task (step2FileOf task)
            (execute_step1 env task (step1FileOf task)
              (setupState env task fs0)).1).1).2 with _ | e
      · simp [h3fs, f2fs, f1fs]
      · simp [h3fs, f2fs, f1fs]
    · simp [f2fs, f1fs]
  · simp [f1fs]

theorem execute_step1_files_shape (env : PipelineEnv) (task : TaskItem)
    (f : String) (s : PState) :
    ∃ w, (execute_step1 env task f s).1.files = s.files ++ w
      ∧ ∀ x ∈ w, Prod.fst x = f := by
  rcases h : env.exec s.invCount with o | e
  · rw [execute_step1_ok env task f s o h]
    refine ⟨[(f, o)], by simp, ?_⟩
    intro x hx
    simp at hx
    simp [hx]
  · rw [execute_step1_err env task f s e h]
    exact ⟨[], by simp, by simp⟩

theorem execute_step2_files_shape (env : PipelineEnv) (task : TaskItem)
    (f : String) (s : PState) :
    ∃ w, (execute_step2 env task f s).1.files = s.files ++ w
      ∧ ∀ x ∈ w, Prod.fst x = f := by
  rcases h : env.exec s.invCount with o | e
  · rw [execute_step2_ok env task f s o h]
    split
    · refine ⟨[(f, o)], by simp, ?_⟩
      intro x hx
      simp at hx
      simp [hx]
    · refine ⟨[(f, o)], by simp, ?_⟩
      intro x hx
      simp at hx
      simp [hx]
  · rw [execute_step2_err env task f s e h]
    exact ⟨[], by simp, by simp⟩

theorem execute_step3_files_shape (env : PipelineEnv) (task : TaskItem)
    (f : String) (s : PState) :
    ∃ w, (execute_step3 env task f s).1.files = s.files ++ w
      ∧ ∀ x ∈ w, Prod.fst x = f := by
  obtain ⟨hst, htr, hfl, hfs⟩ := step3_attempts_frame env task env.maxAttempts
    (emit env task s "step" (step3StepPayload task)) 1 []
  rcases hp : (step3_attempts env task
      (emit env task s "step" (step3StepPayload task)) 1 env.maxAttempts []).2
    with e | ⟨logs, passed⟩
  · refine ⟨[], ?_, by simp⟩
    simp only [execute_step3, hp]
    simp [hfl]
  · cases passed <;>
      · refine ⟨[(f, String.join logs)], ?_, ?_⟩
        · simp only [execute_step3, hp]
          simp [hfl]
        · intro x hx
          simp at hx
          simp [hx]

/-- Every file `_process_task` writes is one of the three per-job stage
artifacts. -/
theorem process_task_files_paths (env : PipelineEnv) (task : TaskItem)
    (fs0 : List String) :
    ∀ x ∈ (process_task env task fs0).files,
      Prod.fst x = step1FileOf task ∨ Prod.fst x = step2FileOf task
        ∨ Prod.fst x = step3FileOf task := by
  obtain ⟨w1, hw1, hw1f⟩ :=
    execute_step1_files_shape env task (step1FileOf task) (setupState env task fs0)
  simp only [process_task]
  rcases h1 : (execute_step1 env task (step1FileOf task)
      (setupState env task fs0)).2 with _ | e
  · obtain ⟨w2, hw2, hw2f⟩ := execute_step2_files_shape env task (step2FileOf task)
      (execute_step1 env task (step1FileOf task) (setupState env task fs0)).1
    rcases h2 : (execute_step2 env task (step2FileOf task)
        (execute_step1 env task (step1FileOf task)
          (setupState env task fs0)).1).2 with _ | e
    · obtain ⟨w3, hw3, hw3f⟩ := execute_step3_files_shape env task (step3FileOf task)
        (execute_step2 env task (step2FileOf task)
          (execute_step1 env task (step1FileOf task)
            (setupState env task fs0)).1).1
      rcases h3 : (execute_step3 env task (step3FileOf task)
          (execute_step2 env task (step2FileOf task)
            (execute_step1 env task (step1FileOf task)
              (setupState env task fs0)).1).1).2 with _ | e <;>
        · intro x hx
          try simp only [failWith_files] at hx
          rw [hw3, hw2, hw1] at hx
          simp at hx
          rcases hx with h | h | h
          · exact Or.inl (hw1f x h)
          · exact Or.inr (Or.inl (hw2f x h))
          · exact Or.inr (Or.inr (hw3f x h))
    · intro x hx
      simp only [failWith_files] at hx
      rw [hw2, hw1] at hx
      simp at hx
      rcases hx with h | h
      · exact Or.inl (hw1f x h)
      · exact Or.inr (Or.inl (hw2f x h))
  · intro x hx
    simp only [failWith_files] at hx
    rw [hw1] at hx
    simp at hx
    exact Or.inl (hw1f x hx)

/-- The pipeline state right after step 2 finishes normally, when step 1
returned `o1` and step 2 returned `o2`. -/
def afterStep2State (env : PipelineEnv) (task : TaskItem) (fs0 : List String)
    (o1 o2 : String) : PState :=
  let t1 := emit env task
    (writeFile
      (invoke env (emit env task (setupState env task fs0) "step"
        (step1StepPayload task))).1
      (step1FileOf task) o1)
    "step_complete" (step1CompletePayload task)
  let t2 := writeFile
    (invoke env (emit env task t1 "step" (step2StepPayload task))).1
    (step2FileOf task) o2
  if check_sentinel_in_output o2 STEP2_SENTINEL then
    emit env task t2 "step_complete" (step2CompletePayload task)
  else
    emit env task t2 "warning" (step2WarningPayload task)

@[simp] theorem afterStep2State_invCount (env : PipelineEnv) (task : TaskItem)
    (fs0 : List String) (o1 o2 : String) :
    (afterStep2State env task fs0 o1 o2).invCount = 2 := by
  simp only [afterStep2State]
  split <;> simp

@[simp] theorem afterStep2State_status (env : PipelineEnv) (task : TaskItem)
    (fs0 : List String) (o1 o2 : String) :
    (afterStep2State env task fs0 o1 o2).status = TaskStatus.RUNNING := by
  simp only [afterStep2State]
  split <;> simp

@[simp] theorem afterStep2State_statusTrace (env : PipelineEnv)
    (task : TaskItem) (fs0 : List String) (o1 o2 : String) :
    (afterStep2State env task fs0 o1 o2).statusTrace
      = [TaskStatus.RUNNING] := by
  simp only [afterStep2State]
  split <;> simp

@[simp] theorem afterStep2State_files (env : PipelineEnv) (task : TaskItem)
    (fs0 : List String) (o1 o2 : String) :
    (afterStep2State env task fs0 o1 o2).files
      = [(step1FileOf task, o1), (step2FileOf task, o2)] := by
  simp only [afterStep2State]
  split <;> simp

@[simp] theorem afterStep2State_fs (env : PipelineEnv) (task : TaskItem)
    (fs0 : List String) (o1 o2 : String) :
    (afterStep2State env task fs0 o1 o2).fs
      = mkdir_exist_ok (mkdir_exist_ok fs0 (testsDirOf task.projectRoot))
          (artifactsDirOf task.projectRoot task.idHex) := by
  simp only [afterStep2State]
  split <;> simp

@[simp] theorem afterStep2State_events (env : PipelineEnv) (task : TaskItem)
    (fs0 : List String) (o1 o2 : String) :
    (afterStep2State env task fs0 o1 o2).events
      = [mkEvent "status" task (statusPayload task),
         mkEvent "step" task (step1StepPayload task),
         mkEvent "step_complete" task (step1CompletePayload task),
         mkEvent "step" task (step2StepPayload task),
         step2ResultEvent task (check_sentinel_in_output o2 STEP2_SENTINEL)] := by
  simp only [afterStep2State]
  split <;> rename_i h <;> simp [step2ResultEvent, h]

/-- When steps 1 and 2 both get output back from the adapter, running the
whole pipeline is running step 3 from `afterStep2State` (with the
`except` clause around it). -/
theorem process_task_after_step2 (env : PipelineEnv) (task : TaskItem)
    (fs0 : List String) (o1 o2 : String)
    (h1 : env.exec 0 = ExecResult.ok o1) (h2 : env.exec 1 = ExecResult.ok o2) :
    process_task env task fs0
      = match (execute_step3 env task (step3FileOf task)
            (afterStep2State env task fs0 o1 o2)).2 with
        | some e => failWith env task
            (execute_step3 env task (step3FileOf task)
              (afterStep2State env task fs0 o1 o2)).1 e
        | none => (execute_step3 env task (step3FileOf task)
            (afterStep2State env task fs0 o1 o2)).1 := by
  have E1 := execute_step1_ok env task (step1FileOf task)
    (setupState env task fs0) o1 h1
  have E2 := execute_step2_ok env task (step2FileOf task)
    (emit env task
      (writeFile
        (invoke env (emit env task (setupState env task fs0) "step"
          (step1StepPayload task))).1
        (step1FileOf task) o1)
      "step_complete" (step1CompletePayload task)) o2 h2
  simp only [process_task, E1, E2, afterStep2State]

/-- `_execute_step3` when no attempt output carries the PASS sentinel:
all `maxAttempts` attempts run, the accumulated log is written once, the
status becomes FAILED and the `failed` event closes the stage. -/
theorem execute_step3_no_pass (env : PipelineEnv) (task : TaskItem)
    (f : String) (s : PState) (outs : Nat → String)
    (hexec : ∀ j, j < env.maxAttempts →
      env.exec (s.invCount + j) = ExecResult.ok (outs (s.invCount + j)))
    (hcheck : ∀ j, j < env.maxAttempts →
      check_sentinel_in_output (outs (s.invCount + j)) PASS_SENTINEL = false) :
    (execute_step3 env task f s).2 = none
      ∧ (execute_step3 env task f s).1.invCount = s.invCount + env.maxAttempts
      ∧ (execute_step3 env task f s).1.status = TaskStatus.FAILED
      ∧ (execute_step3 env task f s).1.statusTrace
          = s.statusTrace ++ [TaskStatus.FAILED]
      ∧ (execute_step3 env task f s).1.files
          = s.files ++ [(f, String.join ((List.range env.maxAttempts).map
              (fun j => attemptBlock (1 + j) (outs (s.invCount + j)))))]
      ∧ (execute_step3 env task f s).1.fs = s.fs
      ∧ (execute_step3 env task f s).1.events
          = s.events ++ mkEvent "step" task (step3StepPayload task)
              :: ((List.range env.maxAttempts).map
                    (fun j => mkEvent "attempt" task
                      (attemptPayload task (1 + j) env.maxAttempts))
                  ++ [mkEvent "failed" task (failedPayload task)]) := by
  have key := step3_attempts_no_pass env task outs env.maxAttempts
    (emit env task s "step" (step3StepPayload task)) 1 [] hexec hcheck
  simp only [emit_invCount, emit_status, emit_statusTrace, emit_files,
    emit_fs, emit_events] at key
  obtain ⟨h1, h2, h3, h4, h5, h6, h7⟩ := key
  refine ⟨?_, ?_, ?_, ?_, ?_, ?_, ?_⟩ <;>
    · simp only [execute_step3, h1]
      simp [h2, h3, h4, h5, h6, h7]

/-- `_execute_step3` when the PASS sentinel first appears on attempt
`k + 1` (0-based output index `k`): exactly `k + 1` attempts run, the log
of those attempts is written once, the status becomes COMPLETED and the
`completed` event closes the stage. -/
theorem execute_step3_found (env : PipelineEnv) (task : TaskItem)
    (f : String) (s : PState) (outs : Nat → String) (k : Nat)
    (hk : k < env.maxAttempts)
    (hexec : ∀ j, j ≤ k →
      env.exec (s.invCount + j) = ExecResult.ok (outs (s.invCount + j)))
    (hcheck : ∀ j, j < k →
      check_sentinel_in_output (outs (s.invCount + j)) PASS_SENTINEL = false)
    (hfound : check_sentinel_in_output (outs (s.invCount + k)) PASS_SENTINEL
      = true) :
    (execute_step3 env task f s).2 = none
      ∧ (execute_step3 env task f s).1.invCount = s.invCount + (k + 1)
      ∧ (execute_step3 env task f s).1.status = TaskStatus.COMPLETED
      ∧ (execute_step3 env task f s).1.statusTrace
          = s.statusTrace ++ [TaskStatus.COMPLETED]
      ∧ (execute_step3 env task f s).1.files
          = s.files ++ [(f, String.join ((List.range (k + 1)).map
              (fun j => attemptBlock (1 + j) (outs (s.invCount + j)))))]
      ∧ (execute_step3 env task f s).1.fs = s.fs
      ∧ (execute_step3 env task f s).1.events
          = s.events ++ mkEvent "step" task (step3StepPayload task)
              :: ((List.range (k + 1)).map
                    (fun j => mkEvent "attempt" task
                      (attemptPayload task (1 + j) env.maxAttempts))
                  ++ [mkEvent "completed" task (completedPayload task)]) := by
  have key := step3_attempts_found env task outs k env.maxAttempts
    (emit env task s "step" (step3StepPayload task)) 1 [] hk hexec hcheck hfound
  simp only [emit_invCount, emit_status, emit_statusTrace, emit_files,
    emit_fs, emit_events] at key
  obtain ⟨h1, h2, h3, h4, h5, h6, h7⟩ := key
  refine ⟨?_, ?_, ?_, ?_, ?_, ?_, ?_⟩ <;>
    · simp only [execute_step3, h1]
      simp [h2, h3, h4, h5, h6, h7]

/- ----------------------------------------------------------------
   Claim C2: the bounded retry policy of stage 3.
   ---------------------------------------------------------------- -/

set_option linter.unusedVariables false in
/-- C2: with `maxAttempts = N ≥ 1` and every adapter invocation returning
output, (a) if no stage-3 output carries the PASS sentinel then stage 3
performs exactly `N` invocations (2 + N in total for the job), exactly
`N` labeled attempt blocks reach `step3.md` through one single write
after the loop, and the job ends FAILED with a final `failed` event;
(b) if the PASS sentinel is first found on attempt `k + 1 ≤ N` then
exactly `k + 1` stage-3 invocations occur, exactly `k + 1` blocks are
written, the loop stops right there, and the job ends COMPLETED with a
final `completed` event. -/
theorem step3_retry_counts (env : PipelineEnv) (task : TaskItem)
    (fs0 : List String) (outs : Nat → String)
    (hexec : ∀ j, env.exec j = ExecResult.ok (outs j))
    (hN : 1 ≤ env.maxAttempts) :
    ((∀ j, j < env.maxAttempts →
        check_sentinel_in_output (outs (2 + j)) PASS_SENTINEL = false) →
      (process_task env task fs0).invCount = 2 + env.maxAttempts
        ∧ (process_task env task fs0).status = TaskStatus.FAILED
        ∧ (process_task env task fs0).statusTrace
            = [TaskStatus.RUNNING, TaskStatus.FAILED]
        ∧ (process_task env task fs0).files
            = [(step1FileOf task, outs 0), (step2FileOf task, outs 1),
               (step3FileOf task, String.join ((List.range env.maxAttempts).map
                 (fun j => attemptBlock (1 + j) (outs (2 + j)))))]
        ∧ (process_task env task fs0).events
            = [mkEvent "status" task (statusPayload task),
               mkEvent "step" task (step1StepPayload task),
               mkEvent "step_complete" task (step1CompletePayload task),
               mkEvent "step" task (step2StepPayload task),
               step2ResultEvent task
                 (check_sentinel_in_output (outs 1) STEP2_SENTINEL),
               mkEvent "step" task (step3StepPayload task)]
              ++ (List.range env.maxAttempts).map
                   (fun j => mkEvent "attempt" task
                     (attemptPayload task (1 + j) env.maxAttempts))
              ++ [mkEvent "failed" task (failedPayload task)])
    ∧ (∀ k, k < env.maxAttempts →
        check_sentinel_in_output (outs (2 + k)) PASS_SENTINEL = true →
        (∀ j, j < k →
          check_sentinel_in_output (outs (2 + j)) PASS_SENTINEL = false) →
      (process_task env task fs0).invCount = 2 + (k + 1)
        ∧ (process_task env task fs0).status = TaskStatus.COMPLETED
        ∧ (process_task env task fs0).statusTrace
            = [TaskStatus.RUNNING, TaskStatus.COMPLETED]
        ∧ (process_task env task fs0).files
            = [(step1FileOf task, outs 0), (step2FileOf task, outs 1),
               (step3FileOf task, String.join ((List.range (k + 1)).map
                 (fun j => attemptBlock (1 + j) (outs (2 + j)))))]
        ∧ (process_task env task fs0).events
            = [mkEvent "status" task (statusPayload task),
               mkEvent "step" task (step1StepPayload task),
               mkEvent "step_complete" task (step1CompletePayload task),
               mkEvent "step" task (step2StepPayload task),
               step2ResultEvent task
                 (check_sentinel_in_output (outs 1) STEP2_SENTINEL),
               mkEvent "step" task (step3StepPayload task)]
              ++ (List.range (k + 1)).map
                   (fun j => mkEvent "attempt" task
                     (attemptPayload task (1 + j) env.maxAttempts))
              ++ [mkEvent "completed" task (completedPayload task)]) := by
  have hP := process_task_after_step2 env task fs0 (outs 0) (outs 1)
    (hexec 0) (hexec 1)
  constructor
  · intro hnopass
    have key := execute_step3_no_pass env task (step3FileOf task)
      (afterStep2State env task fs0 (outs 0) (outs 1)) outs
      (by
        intro j hj
        simp only [afterStep2State_invCount]
        exact hexec (2 + j))
      (by
        intro j hj
        simp only [afterStep2State_invCount]
        exact hnopass j hj)
    obtain ⟨h1, h2, h3, h4, h5, h6, h7⟩ := key
    rw [hP, h1]
    simp only [afterStep2State_invCount, afterStep2State_statusTrace,
      afterStep2State_files, afterStep2State_events] at h2 h3 h4 h5 h7
    refine ⟨h2, h3, by simpa using h4, by simpa using h5, ?_⟩
    rw [h7]
    simp
  · intro k hk hfound hbefore
    have key := execute_step3_found env task (step3FileOf task)
      (afterStep2State env task fs0 (outs 0) (outs 1)) outs k hk
      (by
        intro j hj
        simp only [afterStep2State_invCount]
        exact hexec (2 + j))
      (by
        intro j hj
        simp only [afterStep2State_invCount]
        exact hbefore j hj)
      (by
        simp only [afterStep2State_invCount]
        exact hfound)
    obtain ⟨h1, h2, h3, h4, h5, h6, h7⟩ := key
    rw [hP, h1]
    simp only [afterStep2State_invCount, afterStep2State_statusTrace,
      afterStep2State_files, afterStep2State_events] at h2 h3 h4 h5 h7
    refine ⟨h2, h3, by simpa using h4, by simpa using h5, ?_⟩
    rw [h7]
    simp

theorem string_append_left_cancel (p a b : String) (h : p ++ a = p ++ b) :
    a = b := by
  have hd : (p ++ a).data = (p ++ b).data := by rw [h]
  rw [String.data_append, String.data_append] at hd
  exact String.ext (List.append_cancel_left hd)

/-- The step-1 and step-2 completion payloads of one task differ. -/
theorem step_complete_payloads_ne (task : TaskItem) :
    step1CompletePayload task ≠ step2CompletePayload task := by
  intro h
  simp only [step1CompletePayload, step2CompletePayload] at h
  have h2 := string_append_left_cancel ("[" ++ shortId task) _ _ h
  exact absurd h2 (by decide)

/-- Events appended by the retry loop all belong to the task and all have
kind `attempt`. -/
theorem step3_attempts_events_shape (env : PipelineEnv) (task : TaskItem) :
    ∀ (r : Nat) (s : PState) (a : Nat) (logs : List String),
    ∃ tail, (step3_attempts env task s a r logs).1.events = s.events ++ tail
      ∧ ∀ e ∈ tail, e.taskId = task.idHex ∧ e.kind = "attempt" := by
  intro r
  induction r with
  | zero =>
      intro s a logs
      exact ⟨[], by simp [step3_attempts], by simp⟩
  | succ r ih =>
      intro s a logs
      rcases h : env.exec s.invCount with o | e
      · by_cases hc : check_sentinel_in_output o PASS_SENTINEL
        · have hstep :
              step3_attempts env task s a (r + 1) logs
                = ((invoke env (emit env task s "attempt"
                      (attemptPayload task a env.maxAttempts))).1,
                   Except.ok (logs ++ [attemptBlock a o], true)) := by
            conv_lhs => rw [step3_attempts]
            simp [invoke_snd, emit_invCount, h, hc]
          rw [hstep]
          refine ⟨[mkEvent "attempt" task
            (attemptPayload task a env.maxAttempts)], by simp, ?_⟩
          intro e he
          simp at he
          simp [he, mkEvent]
        · have hstep :
              step3_attempts env task s a (r + 1) logs
                = step3_attempts env task
                    (invoke env (emit env task s "attempt"
                      (attemptPayload task a env.maxAttempts))).1
                    (a + 1) r (logs ++ [attemptBlock a o]) := by
            conv_lhs => rw [step3_attempts]
            simp [invoke_snd, emit_invCount, h, hc]
          rw [hstep]
          obtain ⟨tail, htail, hall⟩ := ih
            (invoke env (emit env task s "attempt"
              (attemptPayload task a env.maxAttempts))).1
            (a + 1) (logs ++ [attemptBlock a o])
          refine ⟨mkEvent "attempt" task
            (attemptPayload task a env.maxAttempts) :: tail, ?_, ?_⟩
          · rw [htail]
            simp
          · intro e he
            rcases List.mem_cons.mp he with h1 | h1
            · simp [h1, mkEvent]
            · exact hall e h1
      · have hstep :
            step3_attempts env task s a (r + 1) logs
              = ((invoke env (emit env task s "attempt"
                    (attemptPayload task a env.maxAttempts))).1,
                 Except.error e) := by
          conv_lhs => rw [step3_attempts]
          simp [invoke_snd, emit_invCount, h]
        rw [hstep]
        refine ⟨[mkEvent "attempt" task
          (attemptPayload task a env.maxAttempts)], by simp, ?_⟩
        intro ev hev
        simp at hev
        simp [hev, mkEvent]

/-- Events appended by the whole of stage 3 belong to the task and have
one of the kinds `step`, `attempt`, `completed`, `failed`. -/
theorem execute_step3_events_shape (env : PipelineEnv) (task : TaskItem)
    (f : String) (s : PState) :
    ∃ tail, (execute_step3 env task f s).1.events = s.events ++ tail
      ∧ ∀ e ∈ tail, e.taskId = task.idHex
          ∧ (e.kind = "step" ∨ e.kind = "attempt" ∨ e.kind = "completed"
              ∨ e.kind = "failed") := by
  obtain ⟨tail, htail, hall⟩ := step3_attempts_events_shape env task
    env.maxAttempts (emit env task s "step" (step3StepPayload task)) 1 []
  simp only [emit_events] at htail
  rcases hp : (step3_attempts env task
      (emit env task s "step" (step3StepPayload task)) 1 env.maxAttempts []).2
    with e | ⟨logs, passed⟩
  · refine ⟨mkEvent "step" task (step3StepPayload task) :: tail, ?_, ?_⟩
    · simp only [execute_step3, hp]
      simp [htail]
    · intro ev hev
      rcases List.mem_cons.mp hev with h1 | h1
      · subst h1
        exact ⟨rfl, Or.inl rfl⟩
      · obtain ⟨ht, hk⟩ := hall ev h1
        exact ⟨ht, Or.inr (Or.inl hk)⟩
  · cases passed with
    | true =>
        refine ⟨mkEvent "step" task (step3StepPayload task) :: tail
          ++ [mkEvent "completed" task (completedPayload task)], ?_, ?_⟩
        · simp only [execute_step3, hp]
          simp [htail]
        · intro ev hev
          simp only [List.cons_append, List.mem_cons, List.mem_append,
            List.mem_singleton] at hev
          rcases hev with h1 | h1 | h1 | h1
          · subst h1
            exact ⟨rfl, Or.inl rfl⟩
          · obtain ⟨ht, hk⟩ := hall ev h1
            exact ⟨ht, Or.inr (Or.inl hk)⟩
          · subst h1
            exact ⟨rfl, Or.inr (Or.inr (Or.inl rfl))⟩
          · exact absurd h1 (List.not_mem_nil ev)
    | false =>
        refine ⟨mkEvent "step" task (step3StepPayload task) :: tail
          ++ [mkEvent "failed" task (failedPayload task)], ?_, ?_⟩
        · simp only [execute_step3, hp]
          simp [htail]
        · intro ev hev
          simp only [List.cons_append, List.mem_cons, List.mem_append,
            List.mem_singleton] at hev
          rcases hev with h1 | h1 | h1 | h1
          · subst h1
            exact ⟨rfl, Or.inl rfl⟩
          · obtain ⟨ht, hk⟩ := hall ev h1
            exact ⟨ht, Or.inr (Or.inl hk)⟩
          · subst h1
            exact ⟨rfl, Or.inr (Or.inr (Or.inr rfl))⟩
          · exact absurd h1 (List.not_mem_nil ev)

theorem execute_step1_events_shape (env : PipelineEnv) (task : TaskItem)
    (f : String) (s : PState) :
    ∃ tail, (execute_step1 env task f s).1.events = s.events ++ tail
      ∧ ∀ e ∈ tail, e.taskId = task.idHex := by
  rcases h : env.exec s.invCount with o | e
  · rw [execute_step1_ok env task f s o h]
    refine ⟨[mkEvent "step" task (step1StepPayload task),
      mkEvent "step_complete" task (step1CompletePayload task)], by simp, ?_⟩
    intro ev hev
    rcases List.mem_cons.mp hev with h1 | h1
    · subst h1; rfl
    · rcases List.mem_cons.mp h1 with h2 | h2
      · subst h2; rfl
      · exact absurd h2 (List.not_mem_nil ev)
  · rw [execute_step1_err env task f s e h]
    refine ⟨[mkEvent "step" task (step1StepPayload task)], by simp, ?_⟩
    intro ev hev
    rcases List.mem_cons.mp hev with h1 | h1
    · subst h1; rfl
    · exact absurd h1 (List.not_mem_nil ev)

theorem execute_step2_events_shape (env : PipelineEnv) (task : TaskItem)
    (f : String) (s : PState) :
    ∃ tail, (execute_step2 env task f s).1.events = s.events ++ tail
      ∧ ∀ e ∈ tail, e.taskId = task.idHex := by
  rcases h : env.exec s.invCount with o | e
  · rw [execute_step2_ok env task f s o h]
    split
    · refine ⟨[mkEvent "step" task (step2StepPayload task),
        mkEvent "step_complete" task (step2CompletePayload task)], by simp, ?_⟩
      intro ev hev
      rcases List.mem_cons.mp hev with h1 | h1
      · subst h1; rfl
      · rcases List.mem_cons.mp h1 with h2 | h2
        · subst h2; rfl
        · exact absurd h2 (List.not_mem_nil ev)
    · refine ⟨[mkEvent "step" task (step2StepPayload task),
        mkEvent "warning" task (step2WarningPayload task)], by simp, ?_⟩
      intro ev hev
      rcases List.mem_cons.mp hev with h1 | h1
      · subst h1; rfl
      · rcases List.mem_cons.mp h1 with h2 | h2
        · subst h2; rfl
        · exact absurd h2 (List.not_mem_nil ev)
  · rw [execute_step2_err env task f s e h]
    refine ⟨[mkEvent "step" task (step2StepPayload task)], by simp, ?_⟩
    intro ev hev
    rcases List.mem_cons.mp hev with h1 | h1
    · subst h1; rfl
    · exact absurd h1 (List.not_mem_nil ev)

/-- Every event `_process_task` emits is tagged with the processed
task's identifier. -/
theorem process_task_events_tag (env : PipelineEnv) (task : TaskItem)
    (fs0 : List String) :
    ∀ e ∈ (process_task env task fs0).events, e.taskId = task.idHex := by
  obtain ⟨t1, ht1, ha1⟩ :=
    execute_step1_events_shape env task (step1FileOf task) (setupState env task fs0)
  simp only [setupState_events] at ht1
  simp only [process_task]
  rcases h1 : (execute_step1 env task (step1FileOf task)
      (setupState env task fs0)).2 with _ | e
  · obtain ⟨t2, ht2, ha2⟩ := execute_step2_events_shape env task (step2FileOf task)
      (execute_step1 env task (step1FileOf task) (setupState env task fs0)).1
    rcases h2 : (execute_step2 env task (step2FileOf task)
        (execute_step1 env task (step1FileOf task)
          (setupState env task fs0)).1).2 with _ | e
    · obtain ⟨t3, ht3, ha3⟩ := execute_step3_events_shape env task (step3FileOf task)
        (execute_step2 env task (step2FileOf task)
          (execute_step1 env task (step1FileOf task)
            (setupState env task fs0)).1).1
      rcases h3 : (execute_step3 env task (step3FileOf task)
          (execute_step2 env task (step2FileOf task)
            (execute_step1 env task (step1FileOf task)
              (setupState env task fs0)).1).1).2 with _ | e
      · intro ev hev
        rw [ht3, ht2, ht1] at hev
        simp at hev
        rcases hev with h | h | h | h
        · simp [h, mkEvent]
        · exact ha1 ev h
        · exact ha2 ev h
        · exact (ha3 ev h).1
      · intro ev hev
        simp only [failWith_events] at hev
        rw [ht3, ht2, ht1] at hev
        simp at hev
        rcases hev with h | h | h | h | h
        · simp [h, mkEvent]
        · exact ha1 ev h
        · exact ha2 ev h
        · exact (ha3 ev h).1
        · simp [h, mkEvent]
    · intro ev hev
      simp only [failWith_events] at hev
      rw [ht2, ht1] at hev
      simp at hev
      rcases hev with h | h | h | h
      · simp [h, mkEvent]
      · exact ha1 ev h
      · exact ha2 ev h
      · simp [h, mkEvent]
  · intro ev hev
    simp only [failWith_events] at hev
    rw [ht1] at hev
    simp at hev
    rcases hev with h | h | h
    · simp [h, mkEvent]
    · exact ha1 ev h
    · simp [h, mkEvent]

/- ----------------------------------------------------------------
   Claim C3: a stage-1 failure aborts the job.
   ---------------------------------------------------------------- -/

/-- C3: if the adapter raises during stage 1 (its first invocation fails
with message `e`), the pipeline performs no further invocations (the
job's total invocation count stays 1, so stages 2 and 3 get zero), the
status becomes FAILED, nothing is written, and the emitted events are
exactly `status`, the stage-1 `step`, and one single `error` event whose
payload carries the exception's message. -/
theorem step1_failure_aborts (env : PipelineEnv) (task : TaskItem)
    (fs0 : List String) (e : String)
    (h : env.exec 0 = ExecResult.err e) :
    (process_task env task fs0).invCount = 1
      ∧ (process_task env task fs0).status = TaskStatus.FAILED
      ∧ (process_task env task fs0).statusTrace
          = [TaskStatus.RUNNING, TaskStatus.FAILED]
      ∧ (process_task env task fs0).events
          = [mkEvent "status" task (statusPayload task),
             mkEvent "step" task (step1StepPayload task),
             mkEvent "error" task (errorPayload task e)]
      ∧ ((process_task env task fs0).events.filter
           (fun ev => ev.kind == "error"))
          = [mkEvent "error" task (errorPayload task e)]
      ∧ (process_task env task fs0).files = [] := by
  have E1 := execute_step1_err env task (step1FileOf task)
    (setupState env task fs0) e h
  refine ⟨?_, ?_, ?_, ?_, ?_, ?_⟩ <;>
    · simp only [process_task, E1]
      simp [failWith, mkEvent, List.filter]

/-- The retry loop never decreases the invocation counter. -/
theorem step3_attempts_invCount_mono (env : PipelineEnv) (task : TaskItem) :
    ∀ (r : Nat) (s : PState) (a : Nat) (logs : List String),
    s.invCount ≤ (step3_attempts env task s a r logs).1.invCount := by
  intro r
  induction r with
  | zero =>
      intro s a logs
      simp [step3_attempts]
  | succ r ih =>
      intro s a logs
      rcases h : env.exec s.invCount with o | e
      · by_cases hc : check_sentinel_in_output o PASS_SENTINEL
        · have hstep :
              step3_attempts env task s a (r + 1) logs
                = ((invoke env (emit env task s "attempt"
                      (attemptPayload task a env.maxAttempts))).1,
                   Except.ok (logs ++ [attemptBlock a o], true)) := by
            conv_lhs => rw [step3_attempts]
            simp [invoke_snd, emit_invCount, h, hc]
          rw [hstep]
          simp
        · have hstep :
              step3_attempts env task s a (r + 1) logs
                = step3_attempts env task
                    (invoke env (emit env task s "attempt"
                      (attemptPayload task a env.maxAttempts))).1
                    (a + 1) r (logs ++ [attemptBlock a o]) := by
            conv_lhs => rw [step3_attempts]
            simp [invoke_snd, emit_invCount, h, hc]
          rw [hstep]
          have := ih (invoke env (emit env task s "attempt"
            (attemptPayload task a env.maxAttempts))).1
            (a + 1) (logs ++ [attemptBlock a o])
          simp only [invoke_fst_invCount, emit_invCount] at this
          omega
      · have hstep :
            step3_attempts env task s a (r + 1) logs
              = ((invoke env (emit env task s "attempt"
                    (attemptPayload task a env.maxAttempts))).1,
                 Except.error e) := by
          conv_lhs => rw [step3_attempts]
          simp [invoke_snd, emit_invCount, h]
        rw [hstep]
        simp

/-- With at least one attempt configured, stage 3 performs at least one
invocation. -/
theorem execute_step3_invCount_ge (env : PipelineEnv) (task : TaskItem)
    (f : String) (s : PState) (hma : 1 ≤ env.maxAttempts) :
    s.invCount + 1 ≤ (execute_step3 env task f s).1.invCount := by
  obtain ⟨r', hr'⟩ : ∃ r', env.maxAttempts = r' + 1 :=
    ⟨env.maxAttempts - 1, by omega⟩
  have hmono : ∀ (s1 : PState) (a : Nat) (logs : List String),
      s1.invCount
        ≤ (step3_attempts env task s1 a env.maxAttempts logs).1.invCount :=
    fun s1 a logs => step3_attempts_invCount_mono env task env.maxAttempts s1 a logs
  have hbound : s.invCount + 1
      ≤ (step3_attempts env task
          (emit env task s "step" (step3StepPayload task)) 1
          env.maxAttempts []).1.invCount := by
    rw [hr']
    rcases h : env.exec s.invCount with o | e
    · by_cases hc : check_sentinel_in_output o PASS_SENTINEL
      · have hstep :
            step3_attempts env task
                (emit env task s "step" (step3StepPayload task)) 1 (r' + 1) []
              = ((invoke env (emit env task
                    (emit env task s "step" (step3StepPayload task)) "attempt"
                    (attemptPayload task 1 env.maxAttempts))).1,
                 Except.ok ([] ++ [attemptBlock 1 o], true)) := by
          conv_lhs => rw [step3_attempts]
          simp [invoke_snd, emit_invCount, h, hc]
        rw [hstep]
        simp
      · have hstep :
            step3_attempts env task
                (emit env task s "step" (step3StepPayload task)) 1 (r' + 1) []
              = step3_attempts env task
                  (invoke env (emit env task
                    (emit env task s "step" (step3StepPayload task)) "attempt"
                    (attemptPayload task 1 env.maxAttempts))).1
                  2 r' ([] ++ [attemptBlock 1 o]) := by
          conv_lhs => rw [step3_attempts]
          simp [invoke_snd, emit_invCount, h, hc]
        rw [hstep]
        have := step3_attempts_invCount_mono env task r'
          (invoke env (emit env task
            (emit env task s "step" (step3StepPayload task)) "attempt"
            (attemptPayload task 1 env.maxAttempts))).1
          2 ([] ++ [attemptBlock 1 o])
        simp only [invoke_fst_invCount, emit_invCount] at this
        omega
    · have hstep :
          step3_attempts env task
              (emit env task s "step" (step3StepPayload task)) 1 (r' + 1) []
            = ((invoke env (emit env task
                  (emit env task s "step" (step3StepPayload task)) "attempt"
                  (attemptPayload task 1 env.maxAttempts))).1,
               Except.error e) := by
        conv_lhs => rw [step3_attempts]
        simp [invoke_snd, emit_invCount, h]
      rw [hstep]
      simp
  rcases hp : (step3_attempts env task
      (emit env task s "step" (step3StepPayload task)) 1 env.maxAttempts []).2
    with e | ⟨logs, passed⟩
  · simp only [execute_step3, hp]
    have := hbound
    simpa using this
  · cases passed <;>
      · simp only [execute_step3, hp]
        have := hbound
        simpa using this

/-- Stage 3 always opens with its `step` event. -/
theorem execute_step3_step_event (env : PipelineEnv) (task : TaskItem)
    (f : String) (s : PState) :
    ∃ rest, (execute_step3 env task f s).1.events
      = s.events ++ mkEvent "step" task (step3StepPayload task) :: rest := by
  obtain ⟨tail, htail, _⟩ := step3_attempts_events_shape env task
    env.maxAttempts (emit env task s "step" (step3StepPayload task)) 1 []
  simp only [emit_events] at htail
  rcases hp : (step3_attempts env task
      (emit env task s "step" (step3StepPayload task)) 1 env.maxAttempts []).2
    with e | ⟨logs, passed⟩
  · refine ⟨tail, ?_⟩
    simp only [execute_step3, hp]
    simp [htail]
  · cases passed with
    | true =>
        refine ⟨tail ++ [mkEvent "completed" task (completedPayload task)], ?_⟩
        simp only [execute_step3, hp]
        simp [htail]
    | false =>
        refine ⟨tail ++ [mkEvent "failed" task (failedPayload task)], ?_⟩
        simp only [execute_step3, hp]
        simp [htail]

/- ----------------------------------------------------------------
   Claim C5: a missing stage-2 sentinel is non-fatal.
   ---------------------------------------------------------------- -/

/-- C5: when stage 2's invocation succeeds but its output lacks the
TESTS_WRITTEN sentinel: (component level) step 2 raises nothing, leaves
the status and trace untouched, persists the output to its file, and
emits `step` followed by `warning` — not `step_complete`; (job level)
the `warning` event is emitted, stage 3 still runs (its `step` event is
emitted and a third invocation happens), stage 2's `step_complete` event
never appears, and `step2.md` holds the output. -/
theorem step2_sentinel_miss_nonfatal (env : PipelineEnv) (task : TaskItem)
    (fs0 : List String) (o1 o2 : String)
    (h1 : env.exec 0 = ExecResult.ok o1)
    (h2 : env.exec 1 = ExecResult.ok o2)
    (hmiss : check_sentinel_in_output o2 STEP2_SENTINEL = false)
    (hma : 1 ≤ env.maxAttempts) :
    (∀ (f : String) (s : PState), env.exec s.invCount = ExecResult.ok o2 →
        (execute_step2 env task f s).2 = none
          ∧ (execute_step2 env task f s).1.status = s.status
          ∧ (execute_step2 env task f s).1.statusTrace = s.statusTrace
          ∧ (execute_step2 env task f s).1.files = s.files ++ [(f, o2)]
          ∧ (execute_step2 env task f s).1.events
              = s.events ++ [mkEvent "step" task (step2StepPayload task),
                  mkEvent "warning" task (step2WarningPayload task)])
      ∧ mkEvent "warning" task (step2WarningPayload task)
          ∈ (process_task env task fs0).events
      ∧ mkEvent "step" task (step3StepPayload task)
          ∈ (process_task env task fs0).events
      ∧ mkEvent "step_complete" task (step2CompletePayload task)
          ∉ (process_task env task fs0).events
      ∧ (step2FileOf task, o2) ∈ (process_task env task fs0).files
      ∧ 3 ≤ (process_task env task fs0).invCount := by
  have hP := process_task_after_step2 env task fs0 o1 o2 h1 h2
  have hafter := afterStep2State_events env task fs0 o1 o2
  rw [hmiss] at hafter
  obtain ⟨tail3, htail3, hkinds3⟩ := execute_step3_events_shape env task
    (step3FileOf task) (afterStep2State env task fs0 o1 o2)
  obtain ⟨rest3, hrest3⟩ := execute_step3_step_event env task
    (step3FileOf task) (afterStep2State env task fs0 o1 o2)
  obtain ⟨w3, hw3, _⟩ := execute_step3_files_shape env task
    (step3FileOf task) (afterStep2State env task fs0 o1 o2)
  have hinv3 := execute_step3_invCount_ge env task (step3FileOf task)
    (afterStep2State env task fs0 o1 o2) hma
  simp only [afterStep2State_invCount] at hinv3
  refine ⟨?_, ?_, ?_, ?_, ?_, ?_⟩
  · intro f s hs
    rw [execute_step2_ok env task f s o2 hs, hmiss]
    simp
  · rw [hP]
    rcases h3 : (execute_step3 env task (step3FileOf task)
        (afterStep2State env task fs0 o1 o2)).2 with _ | e <;>
      · simp only [failWith_events] at *
        rw [hrest3, hafter]
        simp [step2ResultEvent, hmiss]
  · rw [hP]
    rcases h3 : (execute_step3 env task (step3FileOf task)
        (afterStep2State env task fs0 o1 o2)).2 with _ | e <;>
      · simp only [failWith_events] at *
        rw [hrest3]
        simp
  · rw [hP]
    have hne1 : mkEvent "step_complete" task (step2CompletePayload task)
        ∉ (afterStep2State env task fs0 o1 o2).events := by
      rw [hafter]
      intro hmem
      simp only [List.mem_cons, List.not_mem_nil, or_false,
        step2ResultEvent, if_neg (by simp : ¬ (false = true))] at hmem
      rcases hmem with h | h | h | h | h
      · exact absurd (show ("step_complete" : String) = "status" from
          congrArg UiEvent.kind h) (by decide)
      · exact absurd (show ("step_complete" : String) = "step" from
          congrArg UiEvent.kind h) (by decide)
      · exact step_complete_payloads_ne task
          (congrArg UiEvent.payload h).symm
      · exact absurd (show ("step_complete" : String) = "step" from
          congrArg UiEvent.kind h) (by decide)
      · exact absurd (show ("step_complete" : String) = "warning" from
          congrArg UiEvent.kind h) (by decide)
    rcases h3 : (execute_step3 env task (step3FileOf task)
        (afterStep2State env task fs0 o1 o2)).2 with _ | e
    · intro hmem
      rw [htail3] at hmem
      rcases List.mem_append.mp hmem with h | h
      · exact hne1 h
      · obtain ⟨_, hk⟩ := hkinds3 _ h
        rcases hk with h' | h' | h' | h'
        · exact absurd (show ("step_complete" : String) = "step" from h')
            (by decide)
        · exact absurd (show ("step_complete" : String) = "attempt" from h')
            (by decide)
        · exact absurd (show ("step_complete" : String) = "completed" from h')
            (by decide)
        · exact absurd (show ("step_complete" : String) = "failed" from h')
            (by decide)
    · intro hmem
      simp only [failWith_events] at hmem
      rw [htail3] at hmem
      rcases List.mem_append.mp hmem with h | h
      · rcases List.mem_append.mp h with ha | hb
        · exact hne1 ha
        · obtain ⟨_, hk⟩ := hkinds3 _ hb
          rcases hk with h' | h' | h' | h'
          · exact absurd (show ("step_complete" : String) = "step" from h')
              (by decide)
          · exact absurd (show ("step_complete" : String) = "attempt" from h')
              (by decide)
          · exact absurd (show ("step_complete" : String) = "completed" from h')
              (by decide)
          · exact absurd (show ("step_complete" : String) = "failed" from h')
              (by decide)
      · simp only [List.mem_singleton] at h
        exact absurd (show ("step_complete" : String) = "error" from
          congrArg UiEvent.kind h) (by decide)
  · rw [hP]
    rcases h3 : (execute_step3 env task (step3FileOf task)
        (afterStep2State env task fs0 o1 o2)).2 with _ | e <;>
      · simp only [failWith_files] at *
        rw [hw3]
        simp
  · rw [hP]
    rcases h3 : (execute_step3 env task (step3FileOf task)
        (afterStep2State env task fs0 o1 o2)).2 with _ | e <;>
      · simp only [failWith_invCount] at *
        omega

/-- Re-creating an existing directory with `exist_ok` changes nothing. -/
theorem mkdir_exist_ok_idem (fs : List String) (p : String) :
    mkdir_exist_ok (mkdir_exist_ok fs p) p = mkdir_exist_ok fs p := by
  by_cases hp : p ∈ fs <;> simp [mkdir_exist_ok, hp]

/- ----------------------------------------------------------------
   Claim C6: the artifact layout.
   ---------------------------------------------------------------- -/

/-- Concrete adapter that always raises, and two concrete tasks, used to
exercise the pipeline on closed inputs. -/
def execBoom : Nat → ExecResult := fun _ => ExecResult.err "boom"

def allPutOk : Nat → Bool := fun _ => true

def envBoom : PipelineEnv := ⟨execBoom, allPutOk, 3⟩

def taskA : TaskItem := ⟨"aa11", "/p", "d"⟩

def taskB : TaskItem := ⟨"bb22", "/p", "d"⟩

/-- C6 counterexample: the claim locates the per-job artifacts under
`<project_root>/.pipeline_artifacts/`, but the code's directory constant
and `_process_task` use `<project_root>/.claude_tasks/`: processing a
concrete job creates `/p/.claude_tasks/item_aa11` and never creates
`/p/.pipeline_artifacts/item_aa11`. -/
theorem artifact_dir_name_counterexample :
    artifactsDirOf "/p" "aa11" = "/p/.claude_tasks/item_aa11"
      ∧ specArtifactsDirOf "/p" "aa11" = "/p/.pipeline_artifacts/item_aa11"
      ∧ List.elem "/p/.claude_tasks/item_aa11"
          (process_task envBoom taskA []).fs = true
      ∧ List.elem "/p/.pipeline_artifacts/item_aa11"
          (process_task envBoom taskA []).fs = false :=
  ⟨by decide, by decide, by decide, by decide⟩

/-- C6 (amended): the three stage outputs go to
`<project_root>/.claude_tasks/item_<job_id>/step{1,2,3}.md`, the shared
test-output directory is `<project_root>/test_bugfix`, and both
directories are created idempotently (an `exist_ok` mkdir never fails and
re-creation is a no-op) when the job enters RUNNING (the first status
assignment of the run). -/
theorem artifact_layout_amended (env : PipelineEnv) (task : TaskItem)
    (fs0 : List String) :
    testsDirOf task.projectRoot ∈ (process_task env task fs0).fs
      ∧ artifactsDirOf task.projectRoot task.idHex
          ∈ (process_task env task fs0).fs
      ∧ (∀ x ∈ (process_task env task fs0).files,
          Prod.fst x = artifactsDirOf task.projectRoot task.idHex ++ "/step1.md"
            ∨ Prod.fst x = artifactsDirOf task.projectRoot task.idHex ++ "/step2.md"
            ∨ Prod.fst x = artifactsDirOf task.projectRoot task.idHex ++ "/step3.md")
      ∧ (∀ (fs : List String) (p : String),
          mkdir fs p true = Except.ok (mkdir_exist_ok fs p))
      ∧ (∀ (fs : List String) (p : String),
          mkdir_exist_ok (mkdir_exist_ok fs p) p = mkdir_exist_ok fs p)
      ∧ testsDirOf task.projectRoot = task.projectRoot ++ "/" ++ TEST_DIR_NAME
      ∧ artifactsDirOf task.projectRoot task.idHex
          = task.projectRoot ++ "/" ++ ARTIFACTS_DIR_NAME ++ "/item_"
            ++ task.idHex
      ∧ (process_task env task fs0).statusTrace.head?
          = some TaskStatus.RUNNING := by
  refine ⟨?_, ?_, ?_, mkdir_true_eq, mkdir_exist_ok_idem, ?_, ?_, ?_⟩
  · rw [process_task_fs]
    exact mkdir_exist_ok_mem_mono _ _ _ (mkdir_exist_ok_self_mem _ _)
  · rw [process_task_fs]
    exact mkdir_exist_ok_self_mem _ _
  · exact process_task_files_paths env task fs0
  · apply String.ext
    have hlit : ("/test_bugfix" : String).data
        = ("/" : String).data ++ ("test_bugfix" : String).data := by decide
    simp [testsDirOf, TEST_DIR_NAME, String.data_append, hlit]
  · apply String.ext
    have hlit : ("/.claude_tasks/item_" : String).data
        = ("/" : String).data ++ (".claude_tasks" : String).data
          ++ ("/item_" : String).data := by decide
    simp [artifactsDirOf, ARTIFACTS_DIR_NAME, String.data_append, hlit]
  · rcases process_task_terminal env task fs0 with ⟨_, ht⟩ | ⟨_, ht⟩ <;>
      simp [ht]

/-- C6 witness: on a concrete run both directories exist afterwards. -/
theorem artifact_layout_amended_witness :
    testsDirOf taskA.projectRoot ∈ (process_task envBoom taskA []).fs
      ∧ artifactsDirOf taskA.projectRoot taskA.idHex
          ∈ (process_task envBoom taskA []).fs :=
  ⟨(artifact_layout_amended envBoom taskA []).1,
   (artifact_layout_amended envBoom taskA []).2.1⟩

/- ----------------------------------------------------------------
   Claim C7: the client's timeout handling.
   ---------------------------------------------------------------- -/

/-- C7 (the code contradicts the claim): `ClaudeClient.run`'s result is
entirely independent of how long the external command takes and of the
`timeout` argument — the await is never wrapped in a timeout — so an
external command running for 10^9 time-units against the default 1800
timeout still just returns its stdout; only the non-zero-exit half of
the claim holds, with the execution error carrying the exit status and
the captured error stream. The `timeoutErrorMessage` branch is dead
code. -/
theorem client_run_ignores_timeout :
    (∀ (timeout : Nat) (proc : ProcessBehavior) (d : Nat),
        ClaudeClient_run timeout proc
          = ClaudeClient_run timeout
              { returncode := proc.returncode, stdout := proc.stdout,
                stderr := proc.stderr, duration := d })
      ∧ ClaudeClient_run 1800
          { returncode := 0, stdout := "done", stderr := "",
            duration := 1000000000 } = Except.ok "done"
      ∧ ClaudeClient_run 1800
          { returncode := 2, stdout := "out", stderr := "boom",
            duration := 1000000000 }
          = Except.error (execErrorMessage 2 "boom") := by
  refine ⟨?_, rfl, rfl⟩
  intro timeout proc d
  rfl

/- ----------------------------------------------------------------
   Claim C8: the status state machine is forward-only.
   ---------------------------------------------------------------- -/

/-- C8: for every run of the pipeline on a job (whatever the adapter and
the event queue do), the sequence of status values the job ever holds is
ENQUEUED, RUNNING, then exactly one terminal status: the trace of status
assignments is `[RUNNING, COMPLETED]` or `[RUNNING, FAILED]`, the full
status history is strictly increasing in the state machine's order (so no
backward move, and nothing follows a terminal state), and the final
status field is that terminal value. -/
theorem status_forward_only (env : PipelineEnv) (task : TaskItem)
    (fs0 : List String) :
    ((process_task env task fs0).statusTrace
        = [TaskStatus.RUNNING, TaskStatus.COMPLETED]
      ∨ (process_task env task fs0).statusTrace
        = [TaskStatus.RUNNING, TaskStatus.FAILED])
      ∧ List.Chain' (fun a b => statusRank a < statusRank b)
          (TaskStatus.ENQUEUED :: (process_task env task fs0).statusTrace)
      ∧ (process_task env task fs0).status.isTerminal = true
      ∧ (TaskStatus.ENQUEUED
            :: (process_task env task fs0).statusTrace).getLast?
          = some (process_task env task fs0).status := by
  rcases process_task_terminal env task fs0 with ⟨hs, ht⟩ | ⟨hs, ht⟩ <;>
    · rw [hs, ht]
      refine ⟨by simp, ?_, rfl, rfl⟩
      simp [List.chain'_cons, statusRank]

/-- Every `_process_task` run emits the job's `status → RUNNING` event. -/
theorem process_task_status_event (env : PipelineEnv) (task : TaskItem)
    (fs0 : List String) :
    mkEvent "status" task (statusPayload task)
      ∈ (process_task env task fs0).events := by
  obtain ⟨t1, ht1, _⟩ :=
    execute_step1_events_shape env task (step1FileOf task) (setupState env task fs0)
  simp only [setupState_events] at ht1
  simp only [process_task]
  rcases h1 : (execute_step1 env task (step1FileOf task)
      (setupState env task fs0)).2 with _ | e
  · obtain ⟨t2, ht2, _⟩ := execute_step2_events_shape env task (step2FileOf task)
      (execute_step1 env task (step1FileOf task) (setupState env task fs0)).1
    rcases h2 : (execute_step2 env task (step2FileOf task)
        (execute_step1 env task (step1FileOf task)
          (setupState env task fs0)).1).2 with _ | e
    · obtain ⟨t3, ht3, _⟩ := execute_step3_events_shape env task (step3FileOf task)
        (execute_step2 env task (step2FileOf task)
          (execute_step1 env task (step1FileOf task)
            (setupState env task fs0)).1).1
      rcases h3 : (execute_step3 env task (step3FileOf task)
          (execute_step2 env task (step2FileOf task)
            (execute_step1 env task (step1FileOf task)
              (setupState env task fs0)).1).1).2 with _ | e <;>
        · try simp only [failWith_events]
          rw [ht3, ht2, ht1]
          simp
    · try simp only [failWith_events]
      rw [ht2, ht1]
      simp
  · try simp only [failWith_events]
    rw [ht1]
    simp

/- ----------------------------------------------------------------
   Claim C9: strict FIFO — one job's events all precede the next's.
   ---------------------------------------------------------------- -/

/-- C9: the single worker finishes job A's whole state machine before
dequeuing job B, so in the event channel every event of A sits at a
strictly smaller index than every event of B — in particular before B's
`status → RUNNING` event, which B's run does emit; at no point do two
jobs' processing events interleave. -/
theorem fifo_event_ordering (env : PipelineEnv) (A B : TaskItem)
    (fs0 : List String) (hAB : A.idHex ≠ B.idHex) :
    (∀ (i j : Fin (run_jobs env [A, B] fs0).length),
        ((run_jobs env [A, B] fs0).get i).taskId = A.idHex →
        ((run_jobs env [A, B] fs0).get j).taskId = B.idHex →
        (i : Nat) < (j : Nat))
      ∧ mkEvent "status" B (statusPayload B) ∈ run_jobs env [A, B] fs0 := by
  have hL : run_jobs env [A, B] fs0
      = (process_task env A fs0).events
        ++ (process_task env B (process_task env A fs0).fs).events := by
    simp [run_jobs]
  have hA := process_task_events_tag env A fs0
  have hB := process_task_events_tag env B (process_task env A fs0).fs
  have key : ∀ (k : Fin (run_jobs env [A, B] fs0).length),
      ((k : Nat) < (process_task env A fs0).events.length →
        (run_jobs env [A, B] fs0).get k ∈ (process_task env A fs0).events)
      ∧ ((process_task env A fs0).events.length ≤ (k : Nat) →
        (run_jobs env [A, B] fs0).get k
          ∈ (process_task env B (process_task env A fs0).fs).events) := by
    intro k
    have hk := List.get_of_eq hL k
    have hlen : (run_jobs env [A, B] fs0).length
        = (process_task env A fs0).events.length
          + (process_task env B (process_task env A fs0).fs).events.length := by
      rw [hL, List.length_append]
    have hklt : (k : Nat) < (process_task env A fs0).events.length
        + (process_task env B (process_task env A fs0).fs).events.length := by
      have h1 := k.isLt
      omega
    constructor
    · intro hlt
      rw [hk, List.get_eq_getElem, List.getElem_append_left hlt]
      exact List.getElem_mem hlt
    · intro hge
      rw [hk, List.get_eq_getElem, List.getElem_append_right hge]
      exact List.getElem_mem (by omega)
  constructor
  · intro i j hi hj
    by_cases hiA : (i : Nat) < (process_task env A fs0).events.length
    · by_cases hjA : (j : Nat) < (process_task env A fs0).events.length
      · exfalso
        have := hA _ ((key j).1 hjA)
        rw [hj] at this
        exact hAB this.symm
      · omega
    · exfalso
      push_neg at hiA
      have := hB _ ((key i).2 hiA)
      rw [hi] at this
      exact hAB this
  · rw [hL]
    exact List.mem_append_right _
      (process_task_status_event env B (process_task env A fs0).fs)

/- ----------------------------------------------------------------
   Claim C10: event emission never raises and never steers the pipeline.
   ---------------------------------------------------------------- -/

/-- Forget the UI queue's content (the only state component that depends
on whether individual `put` calls succeed). -/
def eraseDelivered (s : PState) : PState := { s with delivered := [] }

theorem eraseD_fields {s s' : PState}
    (h : eraseDelivered s = eraseDelivered s') :
    s.status = s'.status ∧ s.statusTrace = s'.statusTrace
      ∧ s.events = s'.events ∧ s.emitCount = s'.emitCount ∧ s.fs = s'.fs
      ∧ s.files = s'.files ∧ s.invCount = s'.invCount := by
  refine ⟨?_, ?_, ?_, ?_, ?_, ?_, ?_⟩
  · have h' := congrArg PState.status h
    exact h'
  · have h' := congrArg PState.statusTrace h
    exact h'
  · have h' := congrArg PState.events h
    exact h'
  · have h' := congrArg PState.emitCount h
    exact h'
  · have h' := congrArg PState.fs h
    exact h'
  · have h' := congrArg PState.files h
    exact h'
  · have h' := congrArg PState.invCount h
    exact h'

theorem eraseD_ext {s s' : PState} (h1 : s.status = s'.status)
    (h2 : s.statusTrace = s'.statusTrace) (h3 : s.events = s'.events)
    (h4 : s.emitCount = s'.emitCount) (h5 : s.fs = s'.fs)
    (h6 : s.files = s'.files) (h7 : s.invCount = s'.invCount) :
    eraseDelivered s = eraseDelivered s' := by
  cases s
  cases s'
  simp only [eraseDelivered] at *
  simp_all

theorem emit_congr (env1 env2 : PipelineEnv) (task : TaskItem)
    {s s' : PState} (k p : String)
    (h : eraseDelivered s = eraseDelivered s') :
    eraseDelivered (emit env1 task s k p)
      = eraseDelivered (emit env2 task s' k p) := by
  obtain ⟨h1, h2, h3, h4, h5, h6, h7⟩ := eraseD_fields h
  exact eraseD_ext (by simpa using h1) (by simpa using h2)
    (by simp [h3]) (by simp [h4]) (by simpa using h5)
    (by simpa using h6) (by simpa using h7)

theorem invoke_congr (env1 env2 : PipelineEnv) {s s' : PState}
    (hexec : env1.exec = env2.exec)
    (h : eraseDelivered s = eraseDelivered s') :
    eraseDelivered (invoke env1 s).1 = eraseDelivered (invoke env2 s').1
      ∧ (invoke env1 s).2 = (invoke env2 s').2 := by
  obtain ⟨h1, h2, h3, h4, h5, h6, h7⟩ := eraseD_fields h
  constructor
  · exact eraseD_ext (by simpa using h1) (by simpa using h2)
      (by simpa using h3) (by simpa using h4) (by simpa using h5)
      (by simpa using h6) (by simp [h7])
  · simp [invoke_snd, hexec, h7]

theorem writeFile_congr {s s' : PState} (path content : String)
    (h : eraseDelivered s = eraseDelivered s') :
    eraseDelivered (writeFile s path content)
      = eraseDelivered (writeFile s' path content) := by
  obtain ⟨h1, h2, h3, h4, h5, h6, h7⟩ := eraseD_fields h
  exact eraseD_ext (by simpa using h1) (by simpa using h2)
    (by simpa using h3) (by simpa using h4) (by simpa using h5)
    (by simp [h6]) (by simpa using h7)

theorem setStatus_congr {s s' : PState} (st : TaskStatus)
    (h : eraseDelivered s = eraseDelivered s') :
    eraseDelivered (setStatus s st) = eraseDelivered (setStatus s' st) := by
  obtain ⟨h1, h2, h3, h4, h5, h6, h7⟩ := eraseD_fields h
  exact eraseD_ext (by simp) (by simp [h2]) (by simpa using h3)
    (by simpa using h4) (by simpa using h5) (by simpa using h6)
    (by simpa using h7)

theorem step3_attempts_congr (env1 env2 : PipelineEnv) (task : TaskItem)
    (hexec : env1.exec = env2.exec)
    (hma : env1.maxAttempts = env2.maxAttempts) :
    ∀ (r : Nat) {s s' : PState} (a : Nat) (logs : List String),
      eraseDelivered s = eraseDelivered s' →
      eraseDelivered (step3_attempts env1 task s a r logs).1
          = eraseDelivered (step3_attempts env2 task s' a r logs).1
        ∧ (step3_attempts env1 task s a r logs).2
            = (step3_attempts env2 task s' a r logs).2 := by
  intro r
  induction r with
  | zero =>
      intro s s' a logs h
      simp only [step3_attempts]
      exact ⟨h, trivial⟩
  | succ r ih =>
      intro s s' a logs h
      have hinv : s.invCount = s'.invCount := (eraseD_fields h).2.2.2.2.2.2
      have hemit := emit_congr env1 env2 task "attempt"
        (attemptPayload task a env1.maxAttempts) h
      rw [hma] at hemit
      obtain ⟨hinvk, hres⟩ := invoke_congr env1 env2 hexec hemit
      rcases hx : env1.exec s.invCount with o | e
      · have hx' : env2.exec s'.invCount = ExecResult.ok o := by
          rw [← hexec, ← hinv]
          exact hx
        by_cases hc : check_sentinel_in_output o PASS_SENTINEL
        · have hstep1 :
              step3_attempts env1 task s a (r + 1) logs
                = ((invoke env1 (emit env1 task s "attempt"
                      (attemptPayload task a env1.maxAttempts))).1,
                   Except.ok (logs ++ [attemptBlock a o], true)) := by
            conv_lhs => rw [step3_attempts]
            simp [invoke_snd, emit_invCount, hx, hc]
          have hstep2 :
              step3_attempts env2 task s' a (r + 1) logs
                = ((invoke env2 (emit env2 task s' "attempt"
                      (attemptPayload task a env2.maxAttempts))).1,
                   Except.ok (logs ++ [attemptBlock a o], true)) := by
            conv_lhs => rw [step3_attempts]
            simp [invoke_snd, emit_invCount, hx', hc]
          rw [hstep1, hstep2]
          refine ⟨?_, rfl⟩
          simpa [hma] using hinvk
        · have hstep1 :
              step3_attempts env1 task s a (r + 1) logs
                = step3_attempts env1 task
                    (invoke env1 (emit env1 task s "attempt"
                      (attemptPayload task a env1.maxAttempts))).1
                    (a + 1) r (logs ++ [attemptBlock a o]) := by
            conv_lhs => rw [step3_attempts]
            simp [invoke_snd, emit_invCount, hx, hc]
          have hstep2 :
              step3_attempts env2 task s' a (r + 1) logs
                = step3_attempts env2 task
                    (invoke env2 (emit env2 task s' "attempt"
                      (attemptPayload task a env2.maxAttempts))).1
                    (a + 1) r (logs ++ [attemptBlock a o]) := by
            conv_lhs => rw [step3_attempts]
            simp [invoke_snd, emit_invCount, hx', hc]
          rw [hstep1, hstep2]
          exact ih (a + 1) (logs ++ [attemptBlock a o]) (by simpa [hma] using hinvk)
      · have hx' : env2.exec s'.invCount = ExecResult.err e := by
          rw [← hexec, ← hinv]
          exact hx
        have hstep1 :
            step3_attempts env1 task s a (r + 1) logs
              = ((invoke env1 (emit env1 task s "attempt"
                    (attemptPayload task a env1.maxAttempts))).1,
                 Except.error e) := by
          conv_lhs => rw [step3_attempts]
          simp [invoke_snd, emit_invCount, hx]
        have hstep2 :
            step3_attempts env2 task s' a (r + 1) logs
              = ((invoke env2 (emit env2 task s' "attempt"
                    (attemptPayload task a env2.maxAttempts))).1,
               Except.error e) := by
          conv_lhs => rw [step3_attempts]
          simp [invoke_snd, emit_invCount, hx']
        rw [hstep1, hstep2]
        refine ⟨?_, rfl⟩
        simpa [hma] using hinvk

theorem execute_step1_congr (env1 env2 : PipelineEnv) (task : TaskItem)
    (f : String) {s s' : PState} (hexec : env1.exec = env2.exec)
    (h : eraseDelivered s = eraseDelivered s') :
    eraseDelivered (execute_step1 env1 task f s).1
        = eraseDelivered (execute_step1 env2 task f s').1
      ∧ (execute_step1 env1 task f s).2 = (execute_step1 env2 task f s').2 := by
  have hinv : s.invCount = s'.invCount := (eraseD_fields h).2.2.2.2.2.2
  have hemit := emit_congr env1 env2 task "step" (step1StepPayload task) h
  obtain ⟨hinvk, _⟩ := invoke_congr env1 env2 hexec hemit
  rcases hx : env1.exec s.invCount with o | e
  · have hx' : env2.exec s'.invCount = ExecResult.ok o := by
      rw [← hexec, ← hinv]; exact hx
    rw [execute_step1_ok env1 task f s o hx,
      execute_step1_ok env2 task f s' o hx']
    exact ⟨emit_congr env1 env2 task _ _
      (writeFile_congr f o hinvk), rfl⟩
  · have hx' : env2.exec s'.invCount = ExecResult.err e := by
      rw [← hexec, ← hinv]; exact hx
    rw [execute_step1_err env1 task f s e hx,
      execute_step1_err env2 task f s' e hx']
    exact ⟨hinvk, rfl⟩

theorem execute_step2_congr (env1 env2 : PipelineEnv) (task : TaskItem)
    (f : String) {s s' : PState} (hexec : env1.exec = env2.exec)
    (h : eraseDelivered s = eraseDelivered s') :
    eraseDelivered (execute_step2 env1 task f s).1
        = eraseDelivered (execute_step2 env2 task f s').1
      ∧ (execute_step2 env1 task f s).2 = (execute_step2 env2 task f s').2 := by
  have hinv : s.invCount = s'.invCount := (eraseD_fields h).2.2.2.2.2.2
  have hemit := emit_congr env1 env2 task "step" (step2StepPayload task) h
  obtain ⟨hinvk, _⟩ := invoke_congr env1 env2 hexec hemit
  rcases hx : env1.exec s.invCount with o | e
  · have hx' : env2.exec s'.invCount = ExecResult.ok o := by
      rw [← hexec, ← hinv]; exact hx
    rw [execute_step2_ok env1 task f s o hx,
      execute_step2_ok env2 task f s' o hx']
    by_cases hc : check_sentinel_in_output o STEP2_SENTINEL <;>
      · simp only [hc]
        simp only [if_true, if_false, Bool.false_eq_true, ite_true, ite_false]
        exact ⟨emit_congr env1 env2 task _ _
          (writeFile_congr f o hinvk), trivial⟩
  · have hx' : env2.exec s'.invCount = ExecResult.err e := by
      rw [← hexec, ← hinv]; exact hx
    rw [execute_step2_err env1 task f s e hx,
      execute_step2_err env2 task f s' e hx']
    exact ⟨hinvk, rfl⟩

theorem execute_step3_congr (env1 env2 : PipelineEnv) (task : TaskItem)
    (f : String) {s s' : PState} (hexec : env1.exec = env2.exec)
    (hma : env1.maxAttempts = env2.maxAttempts)
    (h : eraseDelivered s = eraseDelivered s') :
    eraseDelivered (execute_step3 env1 task f s).1
        = eraseDelivered (execute_step3 env2 task f s').1
      ∧ (execute_step3 env1 task f s).2 = (execute_step3 env2 task f s').2 := by
  have hemit := emit_congr env1 env2 task "step" (step3StepPayload task) h
  obtain ⟨hloop, hres⟩ := step3_attempts_congr env1 env2 task hexec hma
    env1.maxAttempts 1 [] hemit
  have hloop' : eraseDelivered (step3_attempts env1 task
        (emit env1 task s "step" (step3StepPayload task)) 1
        env1.maxAttempts []).1
      = eraseDelivered (step3_attempts env2 task
          (emit env2 task s' "step" (step3StepPayload task)) 1
          env2.maxAttempts []).1 := by
    rw [← hma]
    exact hloop
  have hres' : (step3_attempts env1 task
        (emit env1 task s "step" (step3StepPayload task)) 1
        env1.maxAttempts []).2
      = (step3_attempts env2 task
          (emit env2 task s' "step" (step3StepPayload task)) 1
          env2.maxAttempts []).2 := by
    rw [← hma]
    exact hres
  rcases hp : (step3_attempts env2 task
      (emit env2 task s' "step" (step3StepPayload task)) 1
      env2.maxAttempts []).2 with e | ⟨logs, passed⟩
  · rw [hp] at hres'
    constructor
    · simp only [execute_step3, hres', hp]
      exact hloop'
    · simp only [execute_step3, hres', hp]
  · rw [hp] at hres'
    cases passed with
    | true =>
        constructor
        · simp only [execute_step3, hres', hp]
          simp only [if_true, ite_true]
          exact emit_congr env1 env2 task _ _
            (setStatus_congr _ (writeFile_congr f (String.join logs) hloop'))
        · simp only [execute_step3, hres', hp]
          simp
    | false =>
        constructor
        · simp only [execute_step3, hres', hp]
          simp only [if_false, Bool.false_eq_true, ite_false]
          exact emit_congr env1 env2 task _ _
            (setStatus_congr _ (writeFile_congr f (String.join logs) hloop'))
        · simp only [execute_step3, hres', hp]
          simp

theorem failWith_congr (env1 env2 : PipelineEnv) (task : TaskItem)
    {s s' : PState} (e : String)
    (h : eraseDelivered s = eraseDelivered s') :
    eraseDelivered (failWith env1 task s e)
      = eraseDelivered (failWith env2 task s' e) :=
  emit_congr env1 env2 task _ _ (setStatus_congr _ h)

theorem setupState_congr (env1 env2 : PipelineEnv) (task : TaskItem)
    (fs0 : List String) :
    eraseDelivered (setupState env1 task fs0)
      = eraseDelivered (setupState env2 task fs0) := by
  apply eraseD_ext <;> simp

/-- Two adapters and attempt budgets being equal, the whole pipeline run
agrees on everything except the UI queue's content, whatever the two
`put` behaviours are. -/
theorem process_task_congr (env1 env2 : PipelineEnv) (task : TaskItem)
    (fs0 : List String) (hexec : env1.exec = env2.exec)
    (hma : env1.maxAttempts = env2.maxAttempts) :
    eraseDelivered (process_task env1 task fs0)
      = eraseDelivered (process_task env2 task fs0) := by
  have hsetup := setupState_congr env1 env2 task fs0
  obtain ⟨h1s, h1r⟩ := execute_step1_congr env1 env2 task (step1FileOf task)
    hexec hsetup
  simp only [process_task]
  rcases hx1 : (execute_step1 env2 task (step1FileOf task)
      (setupState env2 task fs0)).2 with _ | e
  · have hx1' : (execute_step1 env1 task (step1FileOf task)
        (setupState env1 task fs0)).2 = none := by rw [h1r, hx1]
    rw [hx1']
    obtain ⟨h2s, h2r⟩ := execute_step2_congr env1 env2 task (step2FileOf task)
      hexec h1s
    rcases hx2 : (execute_step2 env2 task (step2FileOf task)
        (execute_step1 env2 task (step1FileOf task)
          (setupState env2 task fs0)).1).2 with _ | e
    · have hx2' : (execute_step2 env1 task (step2FileOf task)
          (execute_step1 env1 task (step1FileOf task)
            (setupState env1 task fs0)).1).2 = none := by rw [h2r, hx2]
      rw [hx2']
      obtain ⟨h3s, h3r⟩ := execute_step3_congr env1 env2 task (step3FileOf task)
        hexec hma h2s
      rcases hx3 : (execute_step3 env2 task (step3FileOf task)
          (execute_step2 env2 task (step2FileOf task)
            (execute_step1 env2 task (step1FileOf task)
              (setupState env2 task fs0)).1).1).2 with _ | e
      · have hx3' : (execute_step3 env1 task (step3FileOf task)
            (execute_step2 env1 task (step2FileOf task)
              (execute_step1 env1 task (step1FileOf task)
                (setupState env1 task fs0)).1).1).2 = none := by rw [h3r, hx3]
        rw [hx3']
        exact h3s
      · have hx3' : (execute_step3 env1 task (step3FileOf task)
            (execute_step2 env1 task (step2FileOf task)
              (execute_step1 env1 task (step1FileOf task)
                (setupState env1 task fs0)).1).1).2 = some e := by rw [h3r, hx3]
        rw [hx3']
        exact failWith_congr env1 env2 task e h3s
    · have hx2' : (execute_step2 env1 task (step2FileOf task)
          (execute_step1 env1 task (step1FileOf task)
            (setupState env1 task fs0)).1).2 = some e := by rw [h2r, hx2]
      rw [hx2']
      exact failWith_congr env1 env2 task e h2s
  · have hx1' : (execute_step1 env1 task (step1FileOf task)
        (setupState env1 task fs0)).2 = some e := by rw [h1r, hx1]
    rw [hx1']
    exact failWith_congr env1 env2 task e h1s

/-- C10: the emitter's try/except swallows any `put` failure (the
emitter always returns normally), and the whole pipeline — status, trace
of status assignments, emitted events, file writes, directories and
invocation count — is identical whichever emissions are lost; only the
UI queue's content can differ. A lost event never changes a job's
status and never aborts or alters stage processing. -/
theorem emit_never_raises_and_independent :
    (∀ r : Except String Unit, emit_ui_event_outcome r = Except.ok ())
      ∧ (∀ (ex : Nat → ExecResult) (ma : Nat) (p1 p2 : Nat → Bool)
            (task : TaskItem) (fs0 : List String),
          (process_task ⟨ex, p1, ma⟩ task fs0).status
              = (process_task ⟨ex, p2, ma⟩ task fs0).status
            ∧ (process_task ⟨ex, p1, ma⟩ task fs0).statusTrace
              = (process_task ⟨ex, p2, ma⟩ task fs0).statusTrace
            ∧ (process_task ⟨ex, p1, ma⟩ task fs0).events
              = (process_task ⟨ex, p2, ma⟩ task fs0).events
            ∧ (process_task ⟨ex, p1, ma⟩ task fs0).files
              = (process_task ⟨ex, p2, ma⟩ task fs0).files
            ∧ (process_task ⟨ex, p1, ma⟩ task fs0).fs
              = (process_task ⟨ex, p2, ma⟩ task fs0).fs
            ∧ (process_task ⟨ex, p1, ma⟩ task fs0).invCount
              = (process_task ⟨ex, p2, ma⟩ task fs0).invCount) := by
  constructor
  · intro r
    cases r <;> rfl
  · intro ex ma p1 p2 task fs0
    have h := process_task_congr ⟨ex, p1, ma⟩ ⟨ex, p2, ma⟩ task fs0 rfl rfl
    obtain ⟨a, b, c, d, e, f, g⟩ := eraseD_fields h
    exact ⟨a, b, c, f, e, g⟩

/- ----------------------------------------------------------------
   Claim C4: the FAIL sentinel plays no role in the retry loop.
   ---------------------------------------------------------------- -/

/-- C4: the stage-3 loop consults only the PASS sentinel. Run the loop
against two adapters whose outputs agree on the PASS-sentinel check at
every invocation — regardless of any FAIL sentinel either output carries
(the witness instantiates one side with `"RESULT: FAIL"` outputs and the
other with empty outputs): the resulting states are identical, both runs
stop or continue in lockstep (same `passed` flag), and their logs have
the same number of attempt blocks. So an attempt output containing
`RESULT: FAIL` is treated exactly like one containing no sentinel, and
the loop continues iff the PASS sentinel is not found. -/
theorem step3_fail_sentinel_irrelevant
    (exec1 exec2 : Nat → ExecResult) (putOk : Nat → Bool) (ma : Nat)
    (task : TaskItem) (outs1 outs2 : Nat → String)
    (h1 : ∀ j, exec1 j = ExecResult.ok (outs1 j))
    (h2 : ∀ j, exec2 j = ExecResult.ok (outs2 j))
    (hsame : ∀ j, check_sentinel_in_output (outs1 j) PASS_SENTINEL
      = check_sentinel_in_output (outs2 j) PASS_SENTINEL) :
    ∀ (r : Nat) (s : PState) (a : Nat) (logs1 logs2 : List String),
      logs1.length = logs2.length →
      (step3_attempts ⟨exec1, putOk, ma⟩ task s a r logs1).1
          = (step3_attempts ⟨exec2, putOk, ma⟩ task s a r logs2).1
        ∧ ∃ l1 l2 b,
            (step3_attempts ⟨exec1, putOk, ma⟩ task s a r logs1).2
              = Except.ok (l1, b)
          ∧ (step3_attempts ⟨exec2, putOk, ma⟩ task s a r logs2).2
              = Except.ok (l2, b)
          ∧ l1.length = l2.length := by
  intro r
  induction r with
  | zero =>
      intro s a logs1 logs2 hlen
      exact ⟨rfl, logs1, logs2, false, rfl, rfl, hlen⟩
  | succ r ih =>
      intro s a logs1 logs2 hlen
      cases hb1 : check_sentinel_in_output (outs1 s.invCount) PASS_SENTINEL with
      | true =>
          have hb2 : check_sentinel_in_output (outs2 s.invCount) PASS_SENTINEL
              = true := by rw [← hsame]; exact hb1
          have hstep1 :
              step3_attempts ⟨exec1, putOk, ma⟩ task s a (r + 1) logs1
                = ((invoke ⟨exec1, putOk, ma⟩ (emit ⟨exec1, putOk, ma⟩ task s
                      "attempt" (attemptPayload task a ma))).1,
                   Except.ok (logs1 ++ [attemptBlock a (outs1 s.invCount)],
                     true)) := by
            conv_lhs => rw [step3_attempts]
            simp [invoke_snd, emit_invCount, h1 s.invCount, hb1]
          have hstep2 :
              step3_attempts ⟨exec2, putOk, ma⟩ task s a (r + 1) logs2
                = ((invoke ⟨exec2, putOk, ma⟩ (emit ⟨exec2, putOk, ma⟩ task s
                      "attempt" (attemptPayload task a ma))).1,
                   Except.ok (logs2 ++ [attemptBlock a (outs2 s.invCount)],
                     true)) := by
            conv_lhs => rw [step3_attempts]
            simp [invoke_snd, emit_invCount, h2 s.invCount, hb2]
          rw [hstep1, hstep2]
          refine ⟨rfl, logs1 ++ [attemptBlock a (outs1 s.invCount)],
            logs2 ++ [attemptBlock a (outs2 s.invCount)], true, rfl, rfl, ?_⟩
          simp [hlen]
      | false =>
          have hb2 : check_sentinel_in_output (outs2 s.invCount) PASS_SENTINEL
              = false := by rw [← hsame]; exact hb1
          have hstep1 :
              step3_attempts ⟨exec1, putOk, ma⟩ task s a (r + 1) logs1
                = step3_attempts ⟨exec1, putOk, ma⟩ task
                    (invoke ⟨exec1, putOk, ma⟩ (emit ⟨exec1, putOk, ma⟩ task s
                      "attempt" (attemptPayload task a ma))).1
                    (a + 1) r (logs1 ++ [attemptBlock a (outs1 s.invCount)]) := by
            conv_lhs => rw [step3_attempts]
            simp [invoke_snd, emit_invCount, h1 s.invCount, hb1]
          have hstep2 :
              step3_attempts ⟨exec2, putOk, ma⟩ task s a (r + 1) logs2
                = step3_attempts ⟨exec2, putOk, ma⟩ task
                    (invoke ⟨exec2, putOk, ma⟩ (emit ⟨exec2, putOk, ma⟩ task s
                      "attempt" (attemptPayload task a ma))).1
                    (a + 1) r (logs2 ++ [attemptBlock a (outs2 s.invCount)]) := by
            conv_lhs => rw [step3_attempts]
            simp [invoke_snd, emit_invCount, h2 s.invCount, hb2]
          rw [hstep1, hstep2]
          have hsameState :
              (invoke ⟨exec2, putOk, ma⟩ (emit ⟨exec2, putOk, ma⟩ task s
                "attempt" (attemptPayload task a ma))).1
                = (invoke ⟨exec1, putOk, ma⟩ (emit ⟨exec1, putOk, ma⟩ task s
                    "attempt" (attemptPayload task a ma))).1 := rfl
          rw [hsameState]
          exact ih _ (a + 1) _ _ (by simp [hlen])

/- ----------------------------------------------------------------
   Concrete witnesses.
   ---------------------------------------------------------------- -/

/-- Adapter outputs for the retry-count witness: attempts see
`RESULT: FAIL` twice, then `RESULT: PASS` (overall invocation 3 is
stage 3's attempt 2). -/
def outsW : Nat → String := fun j => if j = 3 then "RESULT: PASS" else "RESULT: FAIL"

def envOuts : PipelineEnv := ⟨fun j => ExecResult.ok (outsW j), allPutOk, 3⟩

theorem step3_retry_counts_witness :
    (process_task envOuts taskA []).invCount = 2 + (1 + 1)
      ∧ (process_task envOuts taskA []).status = TaskStatus.COMPLETED
      ∧ (process_task envOuts taskA []).statusTrace
          = [TaskStatus.RUNNING, TaskStatus.COMPLETED] := by
  have h := (step3_retry_counts envOuts taskA [] outsW (fun j => rfl)
    (by decide)).2 1 (by decide) (by decide)
    (by
      intro j hj
      have hj0 : j = 0 := by omega
      subst hj0
      decide)
  exact ⟨h.1, h.2.1, h.2.2.1⟩

theorem step1_failure_aborts_witness :
    (process_task envBoom taskA []).invCount = 1
      ∧ (process_task envBoom taskA []).status = TaskStatus.FAILED := by
  have h := step1_failure_aborts envBoom taskA [] "boom" rfl
  exact ⟨h.1, h.2.1⟩

/-- Outputs for the FAIL-sentinel witness: one adapter always answers
`RESULT: FAIL`, the other always answers nothing. -/
def outsFail : Nat → String := fun _ => "RESULT: FAIL"

def outsNone : Nat → String := fun _ => ""

theorem step3_fail_sentinel_irrelevant_witness :
    (step3_attempts ⟨fun j => ExecResult.ok (outsFail j), allPutOk, 2⟩ taskA
        (initState []) 1 2 []).1
      = (step3_attempts ⟨fun j => ExecResult.ok (outsNone j), allPutOk, 2⟩
          taskA (initState []) 1 2 []).1 := by
  have h := step3_fail_sentinel_irrelevant
    (fun j => ExecResult.ok (outsFail j)) (fun j => ExecResult.ok (outsNone j))
    allPutOk 2 taskA outsFail outsNone (fun j => rfl) (fun j => rfl)
    (by
      intro j
      show check_sentinel_in_output "RESULT: FAIL" PASS_SENTINEL
        = check_sentinel_in_output "" PASS_SENTINEL
      decide)
    2 (initState []) 1 [] [] rfl
  exact h.1

def envMiss : PipelineEnv :=
  ⟨fun _ => ExecResult.ok "no sentinel here", allPutOk, 3⟩

theorem step2_sentinel_miss_nonfatal_witness :
    mkEvent "warning" taskA (step2WarningPayload taskA)
        ∈ (process_task envMiss taskA []).events
      ∧ 3 ≤ (process_task envMiss taskA []).invCount := by
  have h := step2_sentinel_miss_nonfatal envMiss taskA [] "no sentinel here"
    "no sentinel here" rfl rfl (by decide) (by decide)
  exact ⟨h.2.1, h.2.2.2.2.2⟩

theorem fifo_event_ordering_witness :
    mkEvent "status" taskB (statusPayload taskB)
        ∈ run_jobs envBoom [taskA, taskB] []
      ∧ (2 : Nat) < (3 : Nat) := by
  have h := fifo_event_ordering envBoom taskA taskB [] (by decide)
  refine ⟨h.2, ?_⟩
  exact h.1 ⟨2, by decide⟩ ⟨3, by decide⟩ (by decide) (by decide)
